import Mathlib

/-!
# MyPhone-Backend: Sale Transaction Engine, shallow embedding

This file embeds the sale transaction engine of the MyPhone backend:
the stored procedures `rpc_recompute_sale_receivable_v1`,
`rpc_register_sale_payment_v1`, `rpc_settle_sale_v1`, `rpc_create_sale_v2`,
`rpc_cancel_sale_v2` (from `migrations/2026_02_19_lote7_operational_closure.sql`),
`rpc_update_sale_v2` (from `migrations/2026_02_15_operational_contract_updates.sql`,
which is the latest definition of that function), and the HTTP layer of
`src/modules/sales/index.ts` (payload normalization, server-total check,
idempotency-key handling).

Modelling conventions:
* SQL `numeric` is modelled as `Rat` (arbitrary-precision exact arithmetic,
  like Postgres numeric); `uuid` as `Nat` surrogate ids; `timestamptz` as `Int`.
* JSON payload fields are modelled as already-typed `Option` values; where the
  code applies `nullif(x, '')` to a text field the model applies `nullifEmpty`.
* Each stored procedure is a function `DB → ... → Except Err (DB × Out)`.
  `raise exception` is `.error`; since every rpc runs in its own transaction
  and an uncaught exception aborts it, an `.error` result leaves the database
  in its pre-call state (the `.error` constructor carries no state).
* The values of the Postgres enum `public.payment_method` are not declared in
  this repository; the cast `text::public.payment_method` is modelled as
  succeeding exactly on the five methods permitted by the HTTP boundary schema
  and by the `sale_payments_method_check` constraint. The enum
  `public.card_brand` is likewise undeclared here; its cast is modelled as
  accepting the given text (no claim depends on card-brand validation).
* The sha256 request fingerprint of the idempotency layer is modelled as the
  normalized payload itself (deterministic serialization of the normalized
  request is injective; hash collisions are accepted as negligible by design).
-/

abbrev Money := Rat
abbrev Uid := Nat

/-- An error raised by a stored procedure (`raise exception using message, detail`). -/
structure Err where
  message : String
  detail : String
deriving Repr, DecidableEq

/-- Equality of `Except` results is decidable (used to evaluate the engine
on concrete fixtures). -/
instance {ε α : Type} [DecidableEq ε] [DecidableEq α] : DecidableEq (Except ε α) :=
  fun a b =>
    match a, b with
    | .error e, .error f =>
      if h : e = f then .isTrue (by rw [h]) else .isFalse (by simp [h])
    | .error _, .ok _ => .isFalse (by simp)
    | .ok _, .error _ => .isFalse (by simp)
    | .ok x, .ok y =>
      if h : x = y then .isTrue (by rw [h]) else .isFalse (by simp [h])

/-- `nullif(x, '')` on a nullable text value. -/
def nullifEmpty : Option String → Option String
  | some "" => none
  | x => x

/-- SQL `upper` (and the ASCII-only case folding the engine relies on). -/
def strUpper (s : String) : String := ⟨s.data.map Char.toUpper⟩

/-- SQL `lower` / JS `toLowerCase` on the engine's ASCII tags. -/
def strLower (s : String) : String := ⟨s.data.map Char.toLower⟩

/-- A row of `public.stock_items` (the columns the engine touches). -/
structure StockRow where
  id : Uid
  status : String
  sale_id : Option Uid
  sold_at : Option Int
  purchase_ars : Option Money
  warranty_days : Option Int
  warranty_days_default : Option Int
deriving Repr, DecidableEq

/-- A row of `public.sales` (the columns the engine touches). -/
structure SaleRow where
  id : Uid
  sale_date : Int
  customer_id : Uid
  seller_id : Uid
  payment_method : String
  card_brand : Option String
  installments : Option Int
  surcharge_pct : Option Money
  deposit_ars : Option Money
  total_ars : Money
  paid_ars : Money
  receivable_status : String
  created_by : Uid
  status : String
  updated_at : Int
  updated_by : Option Uid
  currency : String
  fx_rate_used : Option Money
  total_usd : Option Money
  balance_due_ars : Money
  details : Option String
  notes : Option String
  includes_cube_20w : Bool
  cancelled_at : Option Int
  cancelled_by : Option Uid
  cancel_reason : Option String
deriving Repr, DecidableEq

/-- A row of `public.sale_items`. -/
structure SaleItemRow where
  sale_id : Uid
  stock_item_id : Uid
  qty : Int
  sale_price_ars : Money
  subtotal_ars : Money
  unit_cost_ars : Option Money
deriving Repr, DecidableEq

/-- A row of `public.sale_payments`. -/
structure PaymentRow where
  id : Uid
  sale_id : Uid
  method : String
  currency : String
  amount : Money
  card_brand : Option String
  installments : Option Int
  surcharge_pct : Option Money
  note : Option String
  created_by : Option Uid
  created_at : Int
deriving Repr, DecidableEq

/-- A row of `public.warranties` (the columns the engine writes). -/
structure WarrantyRow where
  sale_id : Uid
  stock_item_id : Uid
  customer_id : Uid
  start_date : Int
  end_date : Int
  warranty_days : Int
deriving Repr, DecidableEq

/-- A row of `public.customers`. -/
structure CustomerRow where
  id : Uid
  name : String
  phone : String
deriving Repr, DecidableEq

/-- A row of `public.trade_ins` (the columns `rpc_create_sale_v2` writes). -/
structure TradeInRow where
  id : Uid
  sale_id : Uid
  trade_value_usd : Money
  fx_rate_used : Money
  status : String
  customer_name : Option String
  customer_phone : Option String
deriving Repr, DecidableEq

/-- A row of `public.audit_logs` (actor, action tag, entity). -/
structure AuditRow where
  actor_user_id : Option Uid
  action : String
  entity_type : String
  entity_id : Option Uid
deriving Repr, DecidableEq

/-- A row of `public.sale_audit_logs`. -/
structure SaleAuditRow where
  sale_id : Uid
  action : String
  actor_user_id : Uid
deriving Repr, DecidableEq

/-- One line of the `items` array of a create/update payload. -/
structure ItemPayload where
  stock_item_id : Option Uid
  qty : Option Int
  sale_price_ars : Option Money
deriving Repr, DecidableEq

/-- The `customer` object of a create/update payload. -/
structure CustomerPayload where
  name : Option String
  phone : Option String
deriving Repr, DecidableEq

/-- The legacy `payment` object of a create/update payload. -/
structure PayLegacy where
  method : Option String
  card_brand : Option String
  installments : Option Int
  surcharge_pct : Option Money
  deposit_ars : Option Money
  total_ars : Option Money
deriving Repr, DecidableEq

/-- One entry of the `payments` array, and the payload of
`rpc_register_sale_payment_v1` / `rpc_settle_sale_v1`. -/
structure PaymentItemPayload where
  method : Option String
  currency : Option String
  amount : Option Money
  card_brand : Option String
  installments : Option Int
  surcharge_pct : Option Money
  note : Option String
deriving Repr, DecidableEq

/-- The `trade_in` block of a create payload. -/
structure TradeInPayload where
  enabled : Option Bool
  trade_value_usd : Option Money
  fx_rate_used : Option Money
deriving Repr, DecidableEq

/-- The jsonb payload of `rpc_create_sale_v2`. -/
structure CreatePayload where
  sale_date : Option Int
  items : Option (List ItemPayload)
  total_ars : Option Money
  seller_id : Option Uid
  customer_id : Option Uid
  customer : Option CustomerPayload
  payment : Option PayLegacy
  payment_method : Option String
  card_brand : Option String
  installments : Option Int
  surcharge_pct : Option Money
  deposit_ars : Option Money
  currency : Option String
  fx_rate_used : Option Money
  total_usd : Option Money
  balance_due_ars : Option Money
  notes : Option String
  details : Option String
  includes_cube_20w : Option Bool
  payments : Option (List PaymentItemPayload)
  trade_in : Option TradeInPayload
deriving Repr, DecidableEq

/-- The jsonb payload of `rpc_update_sale_v2`. -/
structure UpdatePayload where
  sale_date : Option Int
  items : Option (List ItemPayload)
  total_ars : Option Money
  customer_id : Option Uid
  customer : Option CustomerPayload
  payment : Option PayLegacy
  payment_method : Option String
  card_brand : Option String
  installments : Option Int
  surcharge_pct : Option Money
  deposit_ars : Option Money
  currency : Option String
  fx_rate_used : Option Money
  total_usd : Option Money
  balance_due_ars : Option Money
  notes : Option String
  includes_cube_20w : Option Bool
deriving Repr, DecidableEq

/-- A response body of the sales POST endpoint, as persisted for
idempotent replay: either the 201 success projection built by the handler
or an `{error: {code, ...}}` body. -/
inductive Body where
  | success (sale_id : Uid) (trade_in_id : Option Uid) (customer_id : Uid)
      (total_ars : Money) (server_total_ars : Money) : Body
  | failure (code : String) : Body
deriving Repr, DecidableEq

/-- The output of `normalizeCreatePayload` in `src/modules/sales/index.ts`:
the rpc payload (whose `total_ars` is the server-computed total) together
with the caller-declared `input_total_ars`. The idempotency fingerprint
hashes this whole value. -/
structure NormalizedCreate where
  rpc : CreatePayload
  input_total_ars : Option Money
deriving Repr, DecidableEq

/-- A row of `public.idempotency_keys`. The request fingerprint is the
normalized payload itself (see header). -/
structure IdemRow where
  id : Uid
  user_id : Uid
  route : String
  key : String
  request_hash : NormalizedCreate
  response_status : Option Int
  response_body : Option Body
deriving Repr, DecidableEq

/-- The database state shared by the engine's operations. `next_id` is the
fresh-id allocator standing in for `gen_random_uuid()`/sequences. -/
structure DB where
  sales : List SaleRow
  sale_items : List SaleItemRow
  stock_items : List StockRow
  sale_payments : List PaymentRow
  warranties : List WarrantyRow
  customers : List CustomerRow
  profiles : List Uid
  trade_ins : List TradeInRow
  audit_logs : List AuditRow
  sale_audit_logs : List SaleAuditRow
  idempotency_keys : List IdemRow
  next_id : Uid
deriving Repr, DecidableEq

/-- `select * from sales where id = sid` (single row). -/
def findSale (db : DB) (sid : Uid) : Option SaleRow :=
  db.sales.find? (fun s => s.id == sid)

/-- `update sales set ... where id = sid`. -/
def updateSaleRow (db : DB) (sid : Uid) (f : SaleRow → SaleRow) : DB :=
  { db with sales := db.sales.map (fun s => if s.id == sid then f s else s) }

/-- The payment methods accepted by the engine (the HTTP `z.enum`, the
`sale_payments_method_check` constraint, and the `payment_method` enum cast). -/
def allowedMethods : List String := ["cash", "transfer", "card", "mixed", "trade_in"]

def allowedCurrencies : List String := ["ARS", "USD"]

/-- One payment amount as counted by `rpc_recompute_sale_receivable_v1`:
`case when upper(coalesce(sp.currency,'ARS')) = 'USD'
      then sp.amount * coalesce(fx_rate_used, 0) else sp.amount end`. -/
def paymentConverted (fx : Option Money) (p : PaymentRow) : Money :=
  if strUpper p.currency = "USD" then p.amount * fx.getD 0 else p.amount

/-- `coalesce(sum(...), 0)` over the sale's payments. -/
def paidSum (db : DB) (sid : Uid) (fx : Option Money) : Money :=
  ((db.sale_payments.filter (fun p => p.sale_id == sid)).map (paymentConverted fx)).sum

/-- Result row of `rpc_recompute_sale_receivable_v1`. -/
structure RecomputeOut where
  sale_id : Uid
  paid_ars : Money
  balance_due_ars : Money
  receivable_status : String
deriving Repr, DecidableEq

/-- `public.rpc_recompute_sale_receivable_v1(p_sale_id, p_actor_user_id)`
(migration 2026_02_19, lines 223–286). -/
def rpc_recompute_sale_receivable_v1 (db : DB) (sid : Uid) (actor : Option Uid)
    (now : Int) : Except Err (DB × RecomputeOut) :=
  match findSale db sid with
  | none => .error ⟨"not_found", "sale_not_found"⟩
  | some sale =>
    let paid := paidSum db sid sale.fx_rate_used
    let bal := max (sale.total_ars - paid) 0
    let rst :=
      if sale.status = "cancelled" then "paid"
      else if bal ≤ 0 then "paid"
      else if paid > 0 then "partial"
      else "pending"
    let db' := updateSaleRow db sid (fun s =>
      { s with
        paid_ars := paid
        balance_due_ars := bal
        receivable_status := rst
        updated_at := now
        updated_by := match actor with | some a => some a | none => s.updated_by })
    .ok (db', ⟨sid, paid, bal, rst⟩)

/-- Result row of `rpc_register_sale_payment_v1` / `rpc_settle_sale_v1`. -/
structure PaymentOut where
  sale_id : Uid
  payment_id : Option Uid
  paid_ars : Money
  balance_due_ars : Money
  receivable_status : String
deriving Repr, DecidableEq

/-- `installments is not null and installments < 1`. -/
def badInstallments : Option Int → Bool
  | some n => n < 1
  | none => false

/-- `surcharge_pct is not null and surcharge_pct < 0`. -/
def badSurcharge : Option Money → Bool
  | some q => q < 0
  | none => false

/-- `public.rpc_register_sale_payment_v1(p_sale_id, p_payload, p_user_id)`
(migration 2026_02_19, lines 288–401). -/
def rpc_register_sale_payment_v1 (db : DB) (sid : Uid) (p : PaymentItemPayload)
    (user : Uid) (now : Int) : Except Err (DB × PaymentOut) :=
  match findSale db sid with
  | none => .error ⟨"not_found", "sale_not_found"⟩
  | some sale =>
    if sale.status = "cancelled" then .error ⟨"conflict", "sale_cancelled"⟩
    else
      let method := strLower ((nullifEmpty p.method).getD "")
      if ¬ allowedMethods.contains method then
        .error ⟨"validation_error", "invalid_payment_method:" ++ method⟩
      else
        let currency := strUpper ((nullifEmpty p.currency).getD "ARS")
        if ¬ allowedCurrencies.contains currency then
          .error ⟨"validation_error", "invalid_currency:" ++ currency⟩
        else
          let amount := p.amount.getD 0
          if amount ≤ 0 then .error ⟨"validation_error", "payment_amount_must_be_gt_0"⟩
          else if badInstallments p.installments then
            .error ⟨"validation_error", "payment_installments_must_be_gte_1"⟩
          else if badSurcharge p.surcharge_pct then
            .error ⟨"validation_error", "payment_surcharge_pct_must_be_gte_0"⟩
          else
            let pid := db.next_id
            let row : PaymentRow :=
              { id := pid, sale_id := sid, method := method, currency := currency
                amount := amount, card_brand := nullifEmpty p.card_brand
                installments := p.installments, surcharge_pct := p.surcharge_pct
                note := nullifEmpty p.note, created_by := some user, created_at := now }
            let db1 : DB :=
              { db with sale_payments := db.sale_payments ++ [row], next_id := db.next_id + 1 }
            match rpc_recompute_sale_receivable_v1 db1 sid (some user) now with
            | .error e => .error e
            | .ok (db2, r) =>
              let db3 : DB :=
                { db2 with audit_logs :=
                    db2.audit_logs ++ [⟨some user, "payment_registered", "sale", some sid⟩] }
              .ok (db3, ⟨sid, some pid, r.paid_ars, r.balance_due_ars, r.receivable_status⟩)

/-- `public.rpc_settle_sale_v1(p_sale_id, p_payload, p_user_id)`
(migration 2026_02_19, lines 403–474). -/
def rpc_settle_sale_v1 (db : DB) (sid : Uid) (p : PaymentItemPayload)
    (user : Uid) (now : Int) : Except Err (DB × PaymentOut) :=
  match findSale db sid with
  | none => .error ⟨"not_found", "sale_not_found"⟩
  | some sale =>
    if sale.status = "cancelled" then .error ⟨"conflict", "sale_cancelled"⟩
    else
      match rpc_recompute_sale_receivable_v1 db sid (some user) now with
      | .error e => .error e
      | .ok (db1, r) =>
        if r.balance_due_ars ≤ 0 then
          .ok (db1, ⟨sid, none, r.paid_ars, 0, "paid"⟩)
        else
          let method := strLower ((nullifEmpty p.method).getD "transfer")
          if ¬ allowedMethods.contains method then
            .error ⟨"validation_error", "invalid_payment_method:" ++ method⟩
          else
            let currency := strUpper ((nullifEmpty p.currency).getD "ARS")
            if ¬ allowedCurrencies.contains currency then
              .error ⟨"validation_error", "invalid_currency:" ++ currency⟩
            else
              let note := (nullifEmpty p.note).getD "settle_sale"
              rpc_register_sale_payment_v1 db1 sid
                { method := some method, currency := some currency
                  amount := some r.balance_due_ars, card_brand := none
                  installments := none, surcharge_pct := none, note := some note }
                user now

/-- Result row of `rpc_cancel_sale_v2`. -/
structure CancelOut where
  sale_id : Uid
  status : String
  already_cancelled : Bool
deriving Repr, DecidableEq

/-- `public.rpc_cancel_sale_v2(p_sale_id, p_reason, p_user_id)`
(migration 2026_02_19, lines 978–1072). -/
def rpc_cancel_sale_v2 (db : DB) (sid : Uid) (reason : String) (user : Uid)
    (now : Int) : Except Err (DB × CancelOut) :=
  match findSale db sid with
  | none => .error ⟨"not_found", "sale_not_found"⟩
  | some sale =>
    if sale.status = "cancelled" then
      .ok (db, ⟨sid, "cancelled", true⟩)
    else
      let stockIds :=
        (db.sale_items.filter (fun it => it.sale_id == sid)).map (fun it => it.stock_item_id)
      let db1 : DB :=
        { db with stock_items := db.stock_items.map (fun st =>
            if stockIds.contains st.id then
              { st with status := "available", sale_id := none, sold_at := none }
            else st) }
      let db2 : DB :=
        { db1 with warranties := db1.warranties.filter (fun w => ¬ w.sale_id == sid) }
      let db3 := updateSaleRow db2 sid (fun s =>
        { s with
          status := "cancelled"
          cancelled_at := some now
          cancelled_by := some user
          cancel_reason := some reason
          balance_due_ars := 0
          receivable_status := "paid"
          updated_at := now
          updated_by := some user })
      let db4 : DB :=
        { db3 with
          sale_audit_logs := db3.sale_audit_logs ++ [⟨sid, "cancelled", user⟩]
          audit_logs := db3.audit_logs ++
            [⟨some user, "stock_state_changed", "sale", some sid⟩,
             ⟨some user, "warranty_status_changed", "sale", some sid⟩] }
      .ok (db4, ⟨sid, "cancelled", false⟩)

/-- `input_total is not null and abs(input_total - server_total) > 0.01`
(the shared total-tolerance check of create and update). -/
def totalMismatch (input : Option Money) (server : Money) : Bool :=
  match input with
  | some t => |t - server| > 1 / 100
  | none => false

/-- `round(q, 2)` on a Postgres numeric (round half away from zero; every value
the engine rounds is non-negative, where this agrees with `round`). -/
def round2 (q : Money) : Money := (round (q * 100) : ℤ) / 100

/-- The first validation loop of `rpc_create_sale_v2` (lines 541–552):
per line, `qty := coalesce(qty, 1)`, `price := coalesce(sale_price_ars, 0)`,
reject `qty < 1` and `price ≤ 0`, and accumulate `qty * price`. -/
def sumItemsValidate : List ItemPayload → Money → Except Err Money
  | [], acc => .ok acc
  | it :: rest, acc =>
    let qty := it.qty.getD 1
    let price := it.sale_price_ars.getD 0
    if qty < 1 then .error ⟨"validation_error", "qty_must_be_gte_1"⟩
    else if price ≤ 0 then .error ⟨"validation_error", "sale_price_must_be_gt_0"⟩
    else sumItemsValidate rest (acc + (qty : Money) * price)

/-- `update customers set name where id` / `insert into customers`, keyed by a
phone lookup (shared by `rpc_create_sale_v2` and `rpc_update_sale_v2`). -/
def upsertCustomerByPhone (db : DB) (nm ph : String) : DB × Uid :=
  match db.customers.find? (fun r => r.phone == ph) with
  | some r =>
    ({ db with customers := db.customers.map (fun x =>
        if x.id == r.id then { x with name := nm } else x) }, r.id)
  | none =>
    ({ db with
       customers := db.customers ++ [⟨db.next_id, nm, ph⟩],
       next_id := db.next_id + 1 }, db.next_id)

/-- Customer resolution of `rpc_create_sale_v2` (lines 574–605). Returns the
database, the customer id, and `(v_customer_name, v_customer_phone)` (null
when an existing `customer_id` was supplied). -/
def resolveCreateCustomer (db : DB) (p : CreatePayload) :
    Except Err (DB × Uid × Option String × Option String) :=
  match p.customer_id with
  | some cid =>
    if db.customers.any (fun c => c.id == cid) then .ok (db, cid, none, none)
    else .error ⟨"not_found", "customer_not_found"⟩
  | none =>
    match p.customer with
    | none => .error ⟨"validation_error", "customer_or_customer_id_required"⟩
    | some c =>
      match nullifEmpty c.name, nullifEmpty c.phone with
      | some nm, some ph =>
        let r := upsertCustomerByPhone db nm ph
        .ok (r.1, r.2, some nm, some ph)
      | _, _ => .error ⟨"validation_error", "customer_name_and_phone_required"⟩

/-- The per-item claim loop of `rpc_create_sale_v2` (lines 701–770): reject
`qty <> 1`, lock and check the stock unit, insert the `sale_items` row, move
the unit to `sold` stamping `sale_id`/`sold_at`, insert the warranty.
Returns the claimed stock ids in order. -/
def claimItems (sid cid : Uid) (saleDate : Int) :
    DB → List ItemPayload → List Uid → Except Err (DB × List Uid)
  | db, [], acc => .ok (db, acc)
  | db, it :: rest, acc =>
    let qty := it.qty.getD 1
    let price := it.sale_price_ars.getD 0
    let subtotal := (qty : Money) * price
    if qty ≠ 1 then
      .error ⟨"validation_error", "qty_not_supported_for_serialized_stock"⟩
    else
      match db.stock_items.find? (fun st => some st.id == it.stock_item_id) with
      | none => .error ⟨"not_found", "stock_item_not_found"⟩
      | some st =>
        if st.status ≠ "available" then
          .error ⟨"stock_conflict", toString st.id ++ ":" ++ st.status⟩
        else
          let db1 : DB :=
            { db with sale_items := db.sale_items ++
                [{ sale_id := sid, stock_item_id := st.id, qty := qty
                   sale_price_ars := price, subtotal_ars := subtotal
                   unit_cost_ars := st.purchase_ars }] }
          let db2 : DB :=
            { db1 with stock_items := db1.stock_items.map (fun x =>
                if x.id == st.id then
                  { x with status := "sold", sale_id := some sid, sold_at := some saleDate }
                else x) }
          let wd := (st.warranty_days.getD (st.warranty_days_default.getD 90))
          let db3 : DB :=
            { db2 with warranties := db2.warranties ++
                [{ sale_id := sid, stock_item_id := st.id, customer_id := cid
                   start_date := saleDate, end_date := saleDate + wd
                   warranty_days := wd }] }
          claimItems sid cid saleDate db3 rest (acc ++ [st.id])

/-- The explicit-payments loop of `rpc_create_sale_v2` (lines 806–859). -/
def postPayments (sid : Uid) (saleCurrency : String) (user : Uid) (now : Int) :
    DB → List PaymentItemPayload → Nat → Except Err (DB × Nat)
  | db, [], count => .ok (db, count)
  | db, pi :: rest, count =>
    let method := strLower ((nullifEmpty pi.method).getD "")
    if ¬ allowedMethods.contains method then
      .error ⟨"validation_error", "invalid_payment_method:" ++ method⟩
    else
      let currency := strUpper ((nullifEmpty pi.currency).getD saleCurrency)
      if ¬ allowedCurrencies.contains currency then
        .error ⟨"validation_error", "invalid_currency:" ++ currency⟩
      else
        let amount := pi.amount.getD 0
        if amount ≤ 0 then .error ⟨"validation_error", "payment_amount_must_be_gt_0"⟩
        else if badInstallments pi.installments then
          .error ⟨"validation_error", "payment_installments_must_be_gte_1"⟩
        else if badSurcharge pi.surcharge_pct then
          .error ⟨"validation_error", "payment_surcharge_pct_must_be_gte_0"⟩
        else
          let db1 : DB :=
            { db with
              sale_payments := db.sale_payments ++
                [{ id := db.next_id, sale_id := sid, method := method
                   currency := currency, amount := amount
                   card_brand := nullifEmpty pi.card_brand
                   installments := pi.installments, surcharge_pct := pi.surcharge_pct
                   note := nullifEmpty pi.note, created_by := some user, created_at := now }]
              next_id := db.next_id + 1 }
          postPayments sid saleCurrency user now db1 rest (count + 1)

/-- `v_total_usd`: keep the explicit value, else derive it for USD sales
(`round(total / fx_rate_used, 2)`), else null. -/
def computeTotalUsd (explicit : Option Money) (currency : String) (fx : Option Money)
    (total : Money) : Option Money :=
  match explicit with
  | some t => some t
  | none =>
    if currency = "USD" ∧ fx.getD 0 > 0 then some (round2 (total / fx.getD 0))
    else none

/-- The payments section of `rpc_create_sale_v2` (lines 772–860): when no
`payments` array is supplied, synthesize exactly one `sale_payments` row from
the sale's method/currency, charging the deposit when `0 < deposit < total`
and the full server total otherwise; when an array is supplied, require it
non-empty and post each entry. -/
def createPayments (dbI : DB) (saleId : Uid) (methodText : String)
    (cardText : Option String) (currency : String) (installments : Option Int)
    (surcharge : Option Money) (deposit : Option Money) (serverTotal : Money)
    (user : Uid) (now : Int) (payments : Option (List PaymentItemPayload)) :
    Except Err (DB × Nat) :=
  match payments with
  | none =>
    let amount :=
      if deposit.getD 0 > 0 ∧ deposit.getD 0 < serverTotal then deposit.getD 0
      else serverTotal
    .ok ({ dbI with
           sale_payments := dbI.sale_payments ++
            [{ id := dbI.next_id, sale_id := saleId
               method := strLower methodText, currency := currency
               amount := amount, card_brand := cardText
               installments := installments
               surcharge_pct := surcharge, note := none
               created_by := some user, created_at := now }]
           next_id := dbI.next_id + 1 }, 1)
  | some entries =>
    if entries.length = 0 then
      .error ⟨"validation_error", "payments_required"⟩
    else postPayments saleId currency user now dbI entries 0

/-- The trade-in section of `rpc_create_sale_v2` (lines 864–886). -/
def createTradeIn (dbR : DB) (saleId : Uid) (custName custPhone : Option String)
    (ti : Option TradeInPayload) : DB × Option Uid :=
  match ti with
  | some t =>
    if t.enabled.getD false then
      ({ dbR with
         trade_ins := dbR.trade_ins ++
          [{ id := dbR.next_id, sale_id := saleId
             trade_value_usd := t.trade_value_usd.getD 0
             fx_rate_used := t.fx_rate_used.getD 0
             status := "valued", customer_name := custName
             customer_phone := custPhone }]
         next_id := dbR.next_id + 1 }, some dbR.next_id)
    else (dbR, none)
  | none => (dbR, none)

/-- The audit section of `rpc_create_sale_v2` (lines 888–956). -/
def createAudits (dbT : DB) (saleId : Uid) (user : Uid) (payCount : Nat) : DB :=
  { dbT with
    sale_audit_logs := dbT.sale_audit_logs ++ [⟨saleId, "created", user⟩]
    audit_logs := dbT.audit_logs ++
      ([⟨some user, "sale_created", "sale", some saleId⟩,
        ⟨some user, "stock_state_changed", "sale", some saleId⟩] ++
       (if payCount > 0 then
          [⟨some user, "payment_registered", "sale", some saleId⟩]
        else []) ++
       [⟨some user, "warranty_status_changed", "sale", some saleId⟩]) }

/-- Result row of `rpc_create_sale_v2`. -/
structure CreateOut where
  sale_id : Uid
  trade_in_id : Option Uid
  customer_id : Uid
  seller_id : Uid
  total_ars : Money
  server_total_ars : Money
  paid_ars : Money
  receivable_status : String
  currency : String
  fx_rate_used : Option Money
  total_usd : Option Money
  balance_due_ars : Money
deriving Repr, DecidableEq

/-- `public.rpc_create_sale_v2(p_payload, p_user_id)`
(migration 2026_02_19, lines 476–976). -/
def rpc_create_sale_v2 (db : DB) (p : CreatePayload) (user : Uid) (now : Int) :
    Except Err (DB × CreateOut) :=
  match p.sale_date with
  | none => .error ⟨"validation_error", "sale_date_required"⟩
  | some saleDate =>
    match p.items with
    | none => .error ⟨"validation_error", "items_required"⟩
    | some items =>
      if items.length = 0 then .error ⟨"validation_error", "items_required"⟩
      else
        match sumItemsValidate items 0 with
        | .error e => .error e
        | .ok serverTotal =>
          if serverTotal ≤ 0 then .error ⟨"validation_error", "total_ars_must_be_gt_0"⟩
          else if totalMismatch p.total_ars serverTotal then
            .error ⟨"total_mismatch", "input_server_differ"⟩
          else
            let seller := p.seller_id.getD user
            if ¬ db.profiles.contains seller then .error ⟨"not_found", "seller_not_found"⟩
            else
              match resolveCreateCustomer db p with
              | .error e => .error e
              | .ok (dbC, cid, custName, custPhone) =>
                let methodText :=
                  ((nullifEmpty p.payment_method).orElse (fun _ =>
                    nullifEmpty (p.payment.bind (fun x => x.method)))).getD "cash"
                if ¬ allowedMethods.contains methodText then
                  .error ⟨"validation_error", "invalid_payment_method:" ++ methodText⟩
                else
                  let cardText :=
                    (nullifEmpty p.card_brand).orElse (fun _ =>
                      nullifEmpty (p.payment.bind (fun x => x.card_brand)))
                  let installments :=
                    p.installments.orElse (fun _ => p.payment.bind (fun x => x.installments))
                  let surcharge :=
                    p.surcharge_pct.orElse (fun _ => p.payment.bind (fun x => x.surcharge_pct))
                  let deposit :=
                    p.deposit_ars.orElse (fun _ => p.payment.bind (fun x => x.deposit_ars))
                  let currency := strUpper ((nullifEmpty p.currency).getD "ARS")
                  if ¬ allowedCurrencies.contains currency then
                    .error ⟨"validation_error", "invalid_currency:" ++ currency⟩
                  else
                    let fx := p.fx_rate_used
                    if currency = "USD" ∧ fx.getD 0 ≤ 0 then
                      .error ⟨"validation_error", "fx_rate_used_required_for_usd"⟩
                    else
                      let totalUsd := computeTotalUsd p.total_usd currency fx serverTotal
                      let balanceDue :=
                        p.balance_due_ars.getD (max (serverTotal - deposit.getD 0) 0)
                      let saleId := dbC.next_id
                      let saleRow : SaleRow :=
                        { id := saleId, sale_date := saleDate, customer_id := cid
                          seller_id := seller, payment_method := methodText
                          card_brand := cardText, installments := installments
                          surcharge_pct := surcharge, deposit_ars := deposit
                          total_ars := serverTotal, paid_ars := 0
                          receivable_status := "pending", created_by := user
                          status := "completed", updated_at := now
                          updated_by := some user, currency := currency
                          fx_rate_used := fx, total_usd := totalUsd
                          balance_due_ars := balanceDue, details := nullifEmpty p.details
                          notes := nullifEmpty p.notes
                          includes_cube_20w := p.includes_cube_20w.getD false
                          cancelled_at := none, cancelled_by := none, cancel_reason := none }
                      let dbS : DB :=
                        { dbC with
                          sales := dbC.sales ++ [saleRow]
                          next_id := dbC.next_id + 1 }
                      match claimItems saleId cid saleDate dbS items [] with
                      | .error e => .error e
                      | .ok (dbI, _stockIds) =>
                        match createPayments dbI saleId methodText cardText currency
                            installments surcharge deposit serverTotal user now p.payments with
                        | .error e => .error e
                        | .ok (dbP, payCount) =>
                          match rpc_recompute_sale_receivable_v1 dbP saleId (some user) now with
                          | .error e => .error e
                          | .ok (dbR, recv) =>
                            let ts := createTradeIn dbR saleId custName custPhone p.trade_in
                            let dbA := createAudits ts.1 saleId user payCount
                            .ok (dbA,
                              { sale_id := saleId, trade_in_id := ts.2
                                customer_id := cid, seller_id := seller
                                total_ars := serverTotal, server_total_ars := serverTotal
                                paid_ars := recv.paid_ars
                                receivable_status := recv.receivable_status
                                currency := currency, fx_rate_used := fx
                                total_usd := totalUsd
                                balance_due_ars := recv.balance_due_ars })

/-- Customer handling of `rpc_update_sale_v2` (migration 2026_02_15,
lines 660–685): the `customer` object, when present, overrides the already
coalesced `customer_id`. -/
def resolveUpdateCustomer (db : DB) (cid0 : Uid) (c : Option CustomerPayload) :
    Except Err (DB × Uid) :=
  match c with
  | none => .ok (db, cid0)
  | some cp =>
    match nullifEmpty cp.name, nullifEmpty cp.phone with
    | some nm, some ph =>
      let r := upsertCustomerByPhone db nm ph
      .ok (r.1, r.2)
    | _, _ => .error ⟨"validation_error", "customer_name_and_phone_required"⟩

/-- The item-replacement claim loop of `rpc_update_sale_v2` (migration
2026_02_15, lines 744–817). Unlike the create loop it accumulates the total,
reports an unavailable unit as `stock_unavailable`, and its
`update stock_items set status = 'sold'` stamps neither `sale_id` nor
`sold_at`. -/
def updClaimItems (sid cid : Uid) (saleDate : Int) :
    DB → List ItemPayload → Money → Except Err (DB × Money)
  | db, [], acc => .ok (db, acc)
  | db, it :: rest, acc =>
    let qty := it.qty.getD 1
    let price := it.sale_price_ars.getD 0
    if qty < 1 then .error ⟨"validation_error", "qty_must_be_gte_1"⟩
    else if price ≤ 0 then .error ⟨"validation_error", "sale_price_must_be_gt_0"⟩
    else if qty ≠ 1 then
      .error ⟨"validation_error", "qty_not_supported_for_serialized_stock"⟩
    else
      match db.stock_items.find? (fun st => some st.id == it.stock_item_id) with
      | none => .error ⟨"not_found", "stock_item_not_found"⟩
      | some st =>
        if st.status ≠ "available" then
          .error ⟨"stock_unavailable", toString st.id ++ ":" ++ st.status⟩
        else
          let subtotal := (qty : Money) * price
          let db1 : DB :=
            { db with sale_items := db.sale_items ++
                [{ sale_id := sid, stock_item_id := st.id, qty := qty
                   sale_price_ars := price, subtotal_ars := subtotal
                   unit_cost_ars := st.purchase_ars }] }
          let db2 : DB :=
            { db1 with stock_items := db1.stock_items.map (fun x =>
                if x.id == st.id then { x with status := "sold" } else x) }
          let wd := (st.warranty_days.getD (st.warranty_days_default.getD 90))
          let db3 : DB :=
            { db2 with warranties := db2.warranties ++
                [{ sale_id := sid, stock_item_id := st.id, customer_id := cid
                   start_date := saleDate, end_date := saleDate + wd
                   warranty_days := wd }] }
          updClaimItems sid cid saleDate db3 rest (acc + subtotal)

/-- The items section of `rpc_update_sale_v2` (lines 722–818): keep the
existing items' total, or replace the item set (release old units by status
only, delete warranties and items, re-claim the new set). -/
def updateItemsStep (dbC : DB) (sid cid : Uid) (saleDate : Int)
    (items : Option (List ItemPayload)) : Except Err (DB × Money) :=
  match items with
  | none =>
    .ok (dbC,
      ((dbC.sale_items.filter (fun it => it.sale_id == sid)).map
        (fun it => it.subtotal_ars)).sum)
  | some its =>
    if its.length = 0 then .error ⟨"validation_error", "items_required"⟩
    else
      let oldIds :=
        (dbC.sale_items.filter (fun it => it.sale_id == sid)).map
          (fun it => it.stock_item_id)
      let dbRel : DB :=
        { dbC with stock_items := dbC.stock_items.map (fun st =>
            if oldIds.contains st.id then { st with status := "available" }
            else st) }
      let dbDel : DB :=
        { dbRel with
          warranties := dbRel.warranties.filter (fun w => ¬ w.sale_id == sid)
          sale_items := dbRel.sale_items.filter (fun it => ¬ it.sale_id == sid) }
      updClaimItems sid cid saleDate dbDel its 0

/-- Result row of `rpc_update_sale_v2`. -/
structure UpdateOut where
  sale_id : Uid
  customer_id : Uid
  total_ars : Money
  server_total_ars : Money
  status : String
  currency : String
  fx_rate_used : Option Money
  total_usd : Option Money
  balance_due_ars : Money
deriving Repr, DecidableEq

/-- `public.rpc_update_sale_v2(p_sale_id, p_payload, p_user_id)`
(migration 2026_02_15, lines 604–875 — the latest definition of this
function; the 2026_02_19 migration does not redefine it). When a new item
set is supplied, the release step (lines 733–739) only sets the previously
claimed units back to `status = 'available'`. -/
def rpc_update_sale_v2 (db : DB) (sid : Uid) (p : UpdatePayload) (user : Uid)
    (now : Int) : Except Err (DB × UpdateOut) :=
  match findSale db sid with
  | none => .error ⟨"not_found", "sale_not_found"⟩
  | some sale =>
    if sale.status = "cancelled" then
      .error ⟨"conflict", "sale_already_cancelled"⟩
    else
      let saleDate := p.sale_date.getD sale.sale_date
      let cid0 := p.customer_id.getD sale.customer_id
      match resolveUpdateCustomer db cid0 p.customer with
      | .error e => .error e
      | .ok (dbC, cid) =>
        let methodText :=
          (((nullifEmpty p.payment_method).orElse (fun _ =>
              nullifEmpty (p.payment.bind (fun x => x.method)))).getD sale.payment_method)
        if ¬ allowedMethods.contains methodText then
          .error ⟨"validation_error", "invalid_payment_method:" ++ methodText⟩
        else
          let cardText :=
            ((nullifEmpty p.card_brand).orElse (fun _ =>
              nullifEmpty (p.payment.bind (fun x => x.card_brand)))).orElse
              (fun _ => sale.card_brand)
          let installments :=
            (p.installments.orElse (fun _ => p.payment.bind (fun x => x.installments))).orElse
              (fun _ => sale.installments)
          let surcharge :=
            (p.surcharge_pct.orElse (fun _ => p.payment.bind (fun x => x.surcharge_pct))).orElse
              (fun _ => sale.surcharge_pct)
          let deposit :=
            (p.deposit_ars.orElse (fun _ => p.payment.bind (fun x => x.deposit_ars))).orElse
              (fun _ => sale.deposit_ars)
          let currency := strUpper ((nullifEmpty p.currency).getD sale.currency)
          if ¬ allowedCurrencies.contains currency then
            .error ⟨"validation_error", "invalid_currency:" ++ currency⟩
          else
            let fx := p.fx_rate_used.orElse (fun _ => sale.fx_rate_used)
            if currency = "USD" ∧ fx.getD 0 ≤ 0 then
              .error ⟨"validation_error", "fx_rate_used_required_for_usd"⟩
            else
              match updateItemsStep dbC sid cid saleDate p.items with
              | .error e => .error e
              | .ok (dbI, totalArs) =>
                if totalArs ≤ 0 then .error ⟨"validation_error", "total_ars_must_be_gt_0"⟩
                else if totalMismatch p.total_ars totalArs then
                  .error ⟨"total_mismatch", "input_server_differ"⟩
                else
                  let totalUsd :=
                    computeTotalUsd (p.total_usd.orElse (fun _ => sale.total_usd))
                      currency fx totalArs
                  let balanceDue :=
                    p.balance_due_ars.getD (max (totalArs - deposit.getD 0) 0)
                  let notes := (nullifEmpty p.notes).orElse (fun _ => sale.notes)
                  let includes := p.includes_cube_20w.getD sale.includes_cube_20w
                  let dbU := updateSaleRow dbI sid (fun s =>
                    { s with
                      sale_date := saleDate
                      customer_id := cid
                      payment_method := methodText
                      card_brand := cardText
                      installments := installments
                      surcharge_pct := surcharge
                      deposit_ars := deposit
                      total_ars := totalArs
                      updated_at := now
                      updated_by := some user
                      currency := currency
                      fx_rate_used := fx
                      total_usd := totalUsd
                      balance_due_ars := balanceDue
                      notes := notes
                      includes_cube_20w := includes })
                  let dbA : DB :=
                    { dbU with sale_audit_logs := dbU.sale_audit_logs ++
                        [⟨sid, "updated", user⟩] }
                  .ok (dbA,
                    { sale_id := sid, customer_id := cid, total_ars := totalArs
                      server_total_ars := totalArs, status := "completed"
                      currency := currency, fx_rate_used := fx, total_usd := totalUsd
                      balance_due_ars := balanceDue })

/-- One line of the `items` array after zod parsing (`saleItemSchema`). -/
structure SaleItemReq where
  stock_item_id : Uid
  qty : Int
  sale_price_ars : Money
deriving Repr, DecidableEq

/-- The `customer` object after zod parsing (`customerSchema`). -/
structure CustomerReq where
  name : String
  phone : String
deriving Repr, DecidableEq

/-- A POST /api/sales request body as typed by `saleCreateSchema`. -/
structure CreateReq where
  sale_date : Int
  customer : Option CustomerReq
  customer_id : Option Uid
  payment_method : Option String
  card_brand : Option String
  installments : Option Int
  surcharge_pct : Option Money
  deposit_ars : Option Money
  total_ars : Option Money
  items : List SaleItemReq
  payment : Option PayLegacy
  trade_in : Option TradeInPayload
deriving Repr, DecidableEq

/-- A PATCH /api/sales/:id request body as typed by `salePatchSchema`. -/
structure PatchReq where
  sale_date : Option Int
  customer : Option CustomerReq
  customer_id : Option Uid
  payment_method : Option String
  card_brand : Option String
  installments : Option Int
  surcharge_pct : Option Money
  deposit_ars : Option Money
  total_ars : Option Money
  items : Option (List SaleItemReq)
  payment : Option PayLegacy
deriving Repr, DecidableEq

/-- The duplicate-detection loop of the `superRefine` blocks: a seen-set
scan over `stock_item_id`s. -/
def hasDupIds : List Uid → Bool
  | [] => false
  | x :: xs => xs.contains x || hasDupIds xs

def optPositive : Option Money → Bool
  | some q => q > 0
  | none => true

def optGeOne : Option Int → Bool
  | some n => n ≥ 1
  | none => true

def optNonneg : Option Money → Bool
  | some q => q ≥ 0
  | none => true

def optMethodOk : Option String → Bool
  | some m => allowedMethods.contains m
  | none => true

/-- The constraints of `paymentLegacySchema`. -/
def payLegacyOk : Option PayLegacy → Bool
  | none => true
  | some p =>
    optMethodOk p.method && optGeOne p.installments && optNonneg p.surcharge_pct &&
      optNonneg p.deposit_ars && optPositive p.total_ars

def customerReqOk : Option CustomerReq → Bool
  | none => true
  | some c => c.name.length ≥ 1 && c.phone.length ≥ 6

def tradeInReqOk : Option TradeInPayload → Bool
  | none => true
  | some t => t.enabled.isSome && t.trade_value_usd.getD 0 ≥ 0 && t.fx_rate_used.getD 0 ≥ 0

def itemReqOk (i : SaleItemReq) : Bool :=
  i.qty ≥ 1 && i.sale_price_ars > 0

/-- `saleCreateSchema.safeParse` succeeding (field constraints plus the two
`superRefine` checks: customer presence and no duplicate stock ids). -/
def saleCreateSchemaOk (req : CreateReq) : Bool :=
  req.items.length ≥ 1 &&
  req.items.all itemReqOk &&
  customerReqOk req.customer &&
  optMethodOk req.payment_method &&
  optGeOne req.installments &&
  optNonneg req.surcharge_pct &&
  optNonneg req.deposit_ars &&
  optPositive req.total_ars &&
  payLegacyOk req.payment &&
  tradeInReqOk req.trade_in &&
  (req.customer_id.isSome || req.customer.isSome) &&
  !hasDupIds (req.items.map (fun i => i.stock_item_id))

/-- `salePatchSchema.safeParse` succeeding (non-empty patch, field
constraints, and no duplicate stock ids when items are supplied). -/
def salePatchSchemaOk (req : PatchReq) : Bool :=
  (req.sale_date.isSome || req.customer.isSome || req.customer_id.isSome ||
   req.payment_method.isSome || req.card_brand.isSome || req.installments.isSome ||
   req.surcharge_pct.isSome || req.deposit_ars.isSome || req.total_ars.isSome ||
   req.items.isSome || req.payment.isSome) &&
  (match req.items with
   | some its =>
     its.length ≥ 1 && its.all itemReqOk && !hasDupIds (its.map (fun i => i.stock_item_id))
   | none => true) &&
  customerReqOk req.customer &&
  optMethodOk req.payment_method &&
  optGeOne req.installments &&
  optNonneg req.surcharge_pct &&
  optNonneg req.deposit_ars &&
  optPositive req.total_ars &&
  payLegacyOk req.payment

/-- `computeServerTotal` in `src/modules/sales/index.ts`:
`items.reduce((sum, item) => sum + item.qty * item.sale_price_ars, 0)`. -/
def computeServerTotalReq (items : List SaleItemReq) : Money :=
  (items.map (fun i => (i.qty : Money) * i.sale_price_ars)).sum

def toItemPayload (i : SaleItemReq) : ItemPayload :=
  { stock_item_id := some i.stock_item_id, qty := some i.qty
    sale_price_ars := some i.sale_price_ars }

def toCustomerPayload (c : CustomerReq) : CustomerPayload :=
  { name := some c.name, phone := some c.phone }

/-- `normalizeCreatePayload` in `src/modules/sales/index.ts` (lines 194–219):
server total replaces `total_ars`, the caller's declared total becomes
`input_total_ars`, legacy `payment` fields are folded in with `??`. -/
def normalizeCreate (req : CreateReq) : NormalizedCreate :=
  let paymentMethod :=
    (req.payment_method.orElse (fun _ => req.payment.bind (fun x => x.method))).getD "cash"
  let cardBrand := req.card_brand.orElse (fun _ => req.payment.bind (fun x => x.card_brand))
  let installments := req.installments.orElse (fun _ => req.payment.bind (fun x => x.installments))
  let surcharge := req.surcharge_pct.orElse (fun _ => req.payment.bind (fun x => x.surcharge_pct))
  let deposit := req.deposit_ars.orElse (fun _ => req.payment.bind (fun x => x.deposit_ars))
  let inputTotal := req.total_ars.orElse (fun _ => req.payment.bind (fun x => x.total_ars))
  let serverTotal := computeServerTotalReq req.items
  { rpc :=
      { sale_date := some req.sale_date
        items := some (req.items.map toItemPayload)
        total_ars := some serverTotal
        seller_id := none
        customer_id := req.customer_id
        customer := req.customer.map toCustomerPayload
        payment := req.payment
        payment_method := some paymentMethod
        card_brand := cardBrand
        installments := installments
        surcharge_pct := surcharge
        deposit_ars := deposit
        currency := none, fx_rate_used := none, total_usd := none
        balance_due_ars := none, notes := none, details := none
        includes_cube_20w := none, payments := none
        trade_in := req.trade_in }
    input_total_ars := inputTotal }

/-- `normalizePatchPayload` (lines 221–250). The declared total, when
present, becomes the rpc payload's `total_ars`. -/
def normalizePatch (req : PatchReq) : UpdatePayload :=
  let inputTotal := req.total_ars.orElse (fun _ => req.payment.bind (fun x => x.total_ars))
  { sale_date := req.sale_date
    items := req.items.map (fun its => its.map toItemPayload)
    total_ars := inputTotal
    customer_id := req.customer_id
    customer := req.customer.map toCustomerPayload
    payment := req.payment
    payment_method := req.payment_method.orElse (fun _ => req.payment.bind (fun x => x.method))
    card_brand := req.card_brand.orElse (fun _ => req.payment.bind (fun x => x.card_brand))
    installments := req.installments.orElse (fun _ => req.payment.bind (fun x => x.installments))
    surcharge_pct := req.surcharge_pct.orElse (fun _ => req.payment.bind (fun x => x.surcharge_pct))
    deposit_ars := req.deposit_ars.orElse (fun _ => req.payment.bind (fun x => x.deposit_ars))
    currency := none, fx_rate_used := none, total_usd := none, balance_due_ars := none
    notes := none, includes_cube_20w := none }

/-- `mapRpcError` (lines 252–269). The TS code tests `message.includes(...)`
on the lowercased message; the engine's messages are the exact tags below, so
the substring tests are specialized to them (`stock_conflict` contains
`conflict` and therefore maps to 409). -/
def mapRpcError (e : Err) : Int × String :=
  if e.message = "total_mismatch" then (422, "total_mismatch")
  else if e.message = "not_found" then (404, "not_found")
  else if e.message = "stock_unavailable" ∨ e.message = "conflict" ∨
          e.message = "stock_conflict" then (409, "conflict")
  else if e.message = "validation_error" then (422, "validation_error")
  else (400, "rpc_failed")

def IDEMPOTENCY_ROUTE : String := "POST /api/sales"

/-- `persistIdempotencyResult` (lines 271–281). -/
def persistIdemResult (db : DB) (idemId : Option Uid) (status : Int) (body : Body) : DB :=
  match idemId with
  | none => db
  | some i =>
    { db with idempotency_keys := db.idempotency_keys.map (fun r =>
        if r.id == i then { r with response_status := some status, response_body := some body }
        else r) }

structure HttpResp where
  status : Int
  body : Body
deriving Repr, DecidableEq

/-- The tail of the POST handler (lines 450–477): invoke `rpc_create_sale_v2`,
persist the response for the idempotency key, and answer. -/
def runCreateRpc (db : DB) (user : Uid) (idemId : Option Uid)
    (norm : NormalizedCreate) (now : Int) : HttpResp × DB :=
  match rpc_create_sale_v2 db norm.rpc user now with
  | .error e =>
    let m := mapRpcError e
    let body := Body.failure m.2
    (⟨m.1, body⟩, persistIdemResult db idemId m.1 body)
  | .ok (db', out) =>
    let body := Body.success out.sale_id out.trade_in_id out.customer_id
      out.total_ars out.server_total_ars
    (⟨201, body⟩, persistIdemResult db' idemId 201 body)

/-- The POST /api/sales handler (lines 365–477): zod parse, server-total
check, idempotency-key begin/replay/conflict, rpc call, response persist. -/
def handleCreateSale (db : DB) (user : Uid) (key : Option String) (req : CreateReq)
    (now : Int) : HttpResp × DB :=
  if ¬ saleCreateSchemaOk req then (⟨400, .failure "validation_error"⟩, db)
  else
    let norm := normalizeCreate req
    if totalMismatch norm.input_total_ars (computeServerTotalReq req.items) then
      (⟨422, .failure "total_mismatch"⟩, db)
    else
      match key with
      | none => runCreateRpc db user none norm now
      | some k =>
        match db.idempotency_keys.find? (fun r =>
            r.user_id == user && r.route == IDEMPOTENCY_ROUTE && r.key == k) with
        | some ex =>
          if ex.request_hash ≠ norm then (⟨409, .failure "idempotency_conflict"⟩, db)
          else
            match ex.response_status, ex.response_body with
            | some s, some b =>
              if s ≠ 0 then (⟨s, b⟩, db)
              else (⟨409, .failure "idempotency_in_progress"⟩, db)
            | _, _ => (⟨409, .failure "idempotency_in_progress"⟩, db)
        | none =>
          let rid := db.next_id
          let db1 : DB :=
            { db with
              idempotency_keys := db.idempotency_keys ++
                [{ id := rid, user_id := user, route := IDEMPOTENCY_ROUTE, key := k
                   request_hash := norm, response_status := none, response_body := none }]
              next_id := db.next_id + 1 }
          runCreateRpc db1 user (some rid) norm now

structure PatchResp where
  status : Int
  code : Option String
  out : Option UpdateOut
deriving Repr, DecidableEq

/-- The pre-rpc total check of the PATCH handler (lines 492–500). -/
def patchTotalPre (items : Option (List SaleItemReq)) (t : Option Money) : Bool :=
  match items, t with
  | some its, some tv => |computeServerTotalReq its - tv| > 1 / 100
  | _, _ => false

/-- The PATCH /api/sales/:id handler (lines 479–520). -/
def handlePatchSale (db : DB) (user : Uid) (sid : Uid) (req : PatchReq)
    (now : Int) : PatchResp × DB :=
  if ¬ salePatchSchemaOk req then (⟨400, some "validation_error", none⟩, db)
  else
    let norm := normalizePatch req
    if patchTotalPre req.items norm.total_ars then
      (⟨422, some "total_mismatch", none⟩, db)
    else
      match rpc_update_sale_v2 db sid norm user now with
      | .error e =>
        let m := mapRpcError e
        (⟨m.1, some m.2, none⟩, db)
      | .ok (db', out) => (⟨200, none, some out⟩, db')

/-- One invocation of the engine (the four public operations plus the two
ledger rpcs, each of which runs as one transaction). -/
inductive EngineOp where
  | createSale (p : CreatePayload) (user : Uid)
  | updateSale (sid : Uid) (p : UpdatePayload) (user : Uid)
  | cancelSale (sid : Uid) (reason : String) (user : Uid)
  | registerPayment (sid : Uid) (p : PaymentItemPayload) (user : Uid)
  | settleSale (sid : Uid) (p : PaymentItemPayload) (user : Uid)
  | recompute (sid : Uid) (actor : Option Uid)
deriving Repr

/-- Transaction-level semantics of one engine operation: an uncaught
exception aborts the transaction, leaving the database unchanged. -/
def applyOp (db : DB) (op : EngineOp) (now : Int) : DB :=
  match op with
  | .createSale p u =>
    match rpc_create_sale_v2 db p u now with | .ok (d, _) => d | .error _ => db
  | .updateSale sid p u =>
    match rpc_update_sale_v2 db sid p u now with | .ok (d, _) => d | .error _ => db
  | .cancelSale sid reason u =>
    match rpc_cancel_sale_v2 db sid reason u now with | .ok (d, _) => d | .error _ => db
  | .registerPayment sid p u =>
    match rpc_register_sale_payment_v1 db sid p u now with | .ok (d, _) => d | .error _ => db
  | .settleSale sid p u =>
    match rpc_settle_sale_v1 db sid p u now with | .ok (d, _) => d | .error _ => db
  | .recompute sid a =>
    match rpc_recompute_sale_receivable_v1 db sid a now with | .ok (d, _) => d | .error _ => db

/-- A sequence of engine operations with their wall-clock times. -/
def applyOps (db : DB) : List (EngineOp × Int) → DB
  | [] => db
  | (op, t) :: rest => applyOps (applyOp db op t) rest

/-- A stock unit's `sale_id` points at a non-cancelled sale. -/
def stockLinkedToLiveSale (db : DB) (st : StockRow) : Bool :=
  match st.sale_id with
  | some sid =>
    match findSale db sid with
    | some s => s.status ≠ "cancelled"
    | none => false
  | none => false

/-- The spec's anti-ghost-stock invariant: `status = 'sold'` iff `sale_id`
is non-null and references a non-cancelled sale. -/
def stockSaleInvariant (db : DB) : Bool :=
  db.stock_items.all (fun st => (st.status == "sold") == stockLinkedToLiveSale db st)

/-- Well-formedness of the id allocator: every sale id is below `next_id`. -/
def salesIdsLt (db : DB) : Prop := ∀ s ∈ db.sales, s.id < db.next_id

/-- Sale `sid` exists and every row carrying it is cancelled. -/
def saleCancelled (db : DB) (sid : Uid) : Prop :=
  (∃ s ∈ db.sales, s.id = sid) ∧ ∀ s ∈ db.sales, s.id = sid → s.status = "cancelled"

/-- How one engine transaction may transform the sales table: ids never
reused, existing rows keep their id and either keep their status or turn
cancelled, new rows take fresh ids, no row is deleted. -/
def SalesEvolution (db db' : DB) : Prop :=
  db.next_id ≤ db'.next_id ∧
  (∀ s' ∈ db'.sales,
    (∃ s ∈ db.sales, s'.id = s.id ∧ (s'.status = s.status ∨ s'.status = "cancelled")) ∨
    (db.next_id ≤ s'.id ∧ s'.id < db'.next_id)) ∧
  (∀ s ∈ db.sales, ∃ s' ∈ db'.sales, s'.id = s.id)

/-- The stock ids referenced by a sale's items. -/
def saleStockIds (db : DB) (sid : Uid) : List Uid :=
  (db.sale_items.filter (fun it => it.sale_id == sid)).map (fun it => it.stock_item_id)

/-- The Payment Ledger's recompute contract, stated in the words of §4.3
of the spec: the sum of all posted payment amounts for the sale, each
converted to the settlement currency (ARS) via the sale's `fx_rate_used`
when the payment's currency differs from it. -/
def specPaidTotal (db : DB) (sid : Uid) (fx : Option Money) : Money :=
  ((db.sale_payments.filter (fun p => p.sale_id == sid)).map (fun p =>
    if p.currency = "ARS" then p.amount else p.amount * fx.getD 0)).sum

/-- §4.3's receivable-status function. -/
def specReceivableStatus (cancelled : Bool) (paid balance : Money) : String :=
  if cancelled then "paid"
  else if balance ≤ 0 then "paid"
  else if paid > 0 then "partial"
  else "pending"

/-- How `rpc_recompute_sale_receivable_v1` rewrites the sale row. -/
def recompPatch (r : RecomputeOut) (a : Option Uid) (now : Int) (x : SaleRow) : SaleRow :=
  { x with
    paid_ars := r.paid_ars
    balance_due_ars := r.balance_due_ars
    receivable_status := r.receivable_status
    updated_at := now
    updated_by := match a with | some u => some u | none => x.updated_by }

/-! ## Concrete fixtures -/

def exStockA : StockRow :=
  { id := 101, status := "available", sale_id := none, sold_at := none
    purchase_ars := some 800, warranty_days := some 30, warranty_days_default := none }

def exStockB : StockRow :=
  { id := 102, status := "available", sale_id := none, sold_at := none
    purchase_ars := some 900, warranty_days := none, warranty_days_default := none }

def exDB : DB :=
  { sales := [], sale_items := [], stock_items := [exStockA, exStockB]
    sale_payments := [], warranties := [], customers := [⟨7, "Ana", "111222333"⟩]
    profiles := [1], trade_ins := [], audit_logs := [], sale_audit_logs := []
    idempotency_keys := [], next_id := 200 }

/-- An rpc-level create payload: sell unit 101 for 1200 to customer 7. -/
def exCreatePayload : CreatePayload :=
  { sale_date := some 1000, items := some [⟨some 101, some 1, some 1200⟩]
    total_ars := some 1200, seller_id := none, customer_id := some 7
    customer := none, payment := none, payment_method := some "cash"
    card_brand := none, installments := none, surcharge_pct := none
    deposit_ars := none, currency := none, fx_rate_used := none
    total_usd := none, balance_due_ars := none, notes := none, details := none
    includes_cube_20w := none, payments := none, trade_in := none }

/-- An rpc-level update payload replacing the item set with unit 102. -/
def exUpdatePayload : UpdatePayload :=
  { sale_date := none, items := some [⟨some 102, some 1, some 1500⟩]
    total_ars := none, customer_id := none, customer := none, payment := none
    payment_method := none, card_brand := none, installments := none
    surcharge_pct := none, deposit_ars := none, currency := none
    fx_rate_used := none, total_usd := none, balance_due_ars := none
    notes := none, includes_cube_20w := none }

def c1DbAfterCreate : DB := applyOp exDB (.createSale exCreatePayload 1) 5

def c1DbAfterUpdate : DB := applyOp c1DbAfterCreate (.updateSale 200 exUpdatePayload 1) 9

def exSale1 : SaleRow :=
  { id := 1, sale_date := 100, customer_id := 7, seller_id := 1
    payment_method := "cash", card_brand := none, installments := none
    surcharge_pct := none, deposit_ars := none, total_ars := 1000, paid_ars := 0
    receivable_status := "pending", created_by := 1, status := "completed"
    updated_at := 100, updated_by := some 1, currency := "ARS"
    fx_rate_used := none, total_usd := none, balance_due_ars := 1000
    details := none, notes := none, includes_cube_20w := false
    cancelled_at := none, cancelled_by := none, cancel_reason := none }

def exPayment1 : PaymentRow :=
  { id := 50, sale_id := 1, method := "cash", currency := "ARS", amount := 600
    card_brand := none, installments := none, surcharge_pct := none
    note := none, created_by := some 1, created_at := 101 }

def c4Db : DB :=
  { sales := [exSale1], sale_items := [], stock_items := []
    sale_payments := [exPayment1], warranties := [], customers := []
    profiles := [1, 2], trade_ins := [], audit_logs := [], sale_audit_logs := []
    idempotency_keys := [], next_id := 60 }

def c4Db1 : DB :=
  match rpc_recompute_sale_receivable_v1 c4Db 1 (some 2) 12 with
  | .ok (d, _) => d
  | .error _ => c4Db

def c4R1 : RecomputeOut :=
  match rpc_recompute_sale_receivable_v1 c4Db 1 (some 2) 12 with
  | .ok (_, r) => r
  | .error _ => ⟨0, 0, 0, ""⟩

/-- A USD-denominated sale with a mixed-currency payment history. -/
def exSaleUsd : SaleRow :=
  { exSale1 with
    id := 2, total_ars := 100000, currency := "USD"
    fx_rate_used := some 1000, balance_due_ars := 100000 }

def exPayUsd : PaymentRow :=
  { exPayment1 with
    id := 51, sale_id := 2, method := "transfer"
    currency := "USD", amount := 50 }

def exPayArs : PaymentRow :=
  { exPayment1 with
    id := 52, sale_id := 2, method := "cash"
    currency := "ARS", amount := 10000 }

def c3Db : DB :=
  { c4Db with sales := [exSaleUsd], sale_payments := [exPayUsd, exPayArs] }

/-- The sale row produced in `c1DbAfterCreate` (id 200). -/
def c1SaleRow : SaleRow := (findSale c1DbAfterCreate 200).getD exSale1

/-- The spec's server-side total: Σ(item qty × item sale price), with the
engine's coalesce defaults (`qty := coalesce(qty,1)`, `price := coalesce(price,0)`). -/
def serverSumItems (items : List ItemPayload) : Money :=
  (items.map (fun i => ((i.qty.getD 1 : Int) : Money) * i.sale_price_ars.getD 0)).sum

def c7Db : DB :=
  match rpc_create_sale_v2 exDB exCreatePayload 1 5 with
  | .ok (d, _) => d
  | .error _ => exDB

def c7Out : CreateOut :=
  match rpc_create_sale_v2 exDB exCreatePayload 1 5 with
  | .ok (_, r) => r
  | .error _ => ⟨0, none, 0, 0, 0, 0, 0, "", "", none, none, 0⟩

/-- An HTTP create request whose declared total (1300) differs from the
computed server total (1200) by more than 0.01. -/
def c5BadReq : CreateReq :=
  { sale_date := 1000, customer := none, customer_id := some 7
    payment_method := some "cash", card_brand := none, installments := none
    surcharge_pct := none, deposit_ars := none, total_ars := some 1300
    items := [⟨101, 1, 1200⟩], payment := none, trade_in := none }

/-- An rpc payload whose declared total (9999) mismatches the item sum (1200). -/
def c5BadPayload : CreatePayload :=
  { exCreatePayload with total_ars := some 9999 }

/-- A well-formed HTTP create request (total matches). -/
def c6Req : CreateReq :=
  { sale_date := 1000, customer := none, customer_id := some 7
    payment_method := some "cash", card_brand := none, installments := none
    surcharge_pct := none, deposit_ars := none, total_ars := some 1200
    items := [⟨101, 1, 1200⟩], payment := none, trade_in := none }

/-- First call of `c6Req` under idempotency key "K". -/
def c6Pair : HttpResp × DB := handleCreateSale exDB 1 (some "K") c6Req 5

/-- A create request with a line of quantity 0. -/
def c9Req : CreateReq :=
  { sale_date := 1000, customer := none, customer_id := some 7
    payment_method := some "cash", card_brand := none, installments := none
    surcharge_pct := none, deposit_ars := none, total_ars := none
    items := [⟨101, 0, 1200⟩], payment := none, trade_in := none }

/-- A create request with a line of quantity 2 that passes the zod schema. -/
def c9Req2 : CreateReq :=
  { sale_date := 1000, customer := none, customer_id := some 7
    payment_method := some "cash", card_brand := none, installments := none
    surcharge_pct := none, deposit_ars := none, total_ars := some 1200
    items := [⟨101, 2, 600⟩], payment := none, trade_in := none }

/-- A create request naming stock unit 101 on two lines. -/
def c10Req : CreateReq :=
  { sale_date := 1000, customer := none, customer_id := some 7
    payment_method := some "cash", card_brand := none, installments := none
    surcharge_pct := none, deposit_ars := none, total_ars := none
    items := [⟨101, 1, 600⟩, ⟨101, 1, 600⟩], payment := none, trade_in := none }

/-- A patch request naming stock unit 101 on two lines. -/
def c10Patch : PatchReq :=
  { sale_date := none, customer := none, customer_id := none
    payment_method := none, card_brand := none, installments := none
    surcharge_pct := none, deposit_ars := none, total_ars := none
    items := some [⟨101, 1, 600⟩, ⟨101, 1, 600⟩], payment := none }

/-- The cancelled-sale row of `c8Db`. -/
def c8Sale : SaleRow :=
  { exSale1 with
    status := "cancelled", balance_due_ars := 0
    receivable_status := "paid", cancelled_at := some 50
    cancelled_by := some 1, cancel_reason := some "test" }

/-- A database holding one cancelled sale (id 1). -/
def c8Db : DB :=
  { sales := [c8Sale], sale_items := [], stock_items := []
    sale_payments := [], warranties := [], customers := []
    profiles := [1], trade_ins := [], audit_logs := []
    sale_audit_logs := [], idempotency_keys := [], next_id := 60 }

unseal Rat.add Rat.mul Rat.sub Rat.inv Rat.ofScientific

/-! ## Helper lemmas -/

theorem updateSaleRow_sale_items (db : DB) (sid : Uid) (f : SaleRow → SaleRow) :
    (updateSaleRow db sid f).sale_items = db.sale_items := rfl

theorem updateSaleRow_next_id (db : DB) (sid : Uid) (f : SaleRow → SaleRow) :
    (updateSaleRow db sid f).next_id = db.next_id := rfl

theorem recompute_ok_destruct (db : DB) (sid : Uid) (a : Option Uid) (now : Int)
    (db' : DB) (r : RecomputeOut)
    (h : rpc_recompute_sale_receivable_v1 db sid a now = .ok (db', r)) :
    ∃ s, findSale db sid = some s ∧
      r.sale_id = sid ∧
      r.paid_ars = paidSum db sid s.fx_rate_used ∧
      r.balance_due_ars = max (s.total_ars - r.paid_ars) 0 ∧
      r.receivable_status =
        (if s.status = "cancelled" then "paid"
         else if r.balance_due_ars ≤ 0 then "paid"
         else if r.paid_ars > 0 then "partial"
         else "pending") ∧
      db' = updateSaleRow db sid (recompPatch r a now) := by
  simp only [rpc_recompute_sale_receivable_v1] at h
  split at h
  · exact Except.noConfusion h
  · rename_i s hs
    cases h
    exact ⟨s, hs, rfl, rfl, rfl, rfl, rfl⟩

theorem paidSum_eq_spec (db : DB) (sid : Uid) (fx : Option Money)
    (hcur : ∀ p ∈ db.sale_payments, p.currency = "ARS" ∨ p.currency = "USD") :
    paidSum db sid fx = specPaidTotal db sid fx := by
  unfold paidSum specPaidTotal
  congr 1
  refine List.map_congr_left (fun p hp => ?_)
  have hmem := List.mem_of_mem_filter hp
  have hA : strUpper "ARS" = "ARS" := by decide
  have hU : strUpper "USD" = "USD" := by decide
  rcases hcur p hmem with h | h <;> simp [paymentConverted, h, hA, hU]

theorem find?_map_pred {α : Type} (g : α → α) (p : α → Bool)
    (hg : ∀ x, p (g x) = p x) :
    ∀ l : List α, (l.map g).find? p = (l.find? p).map g := by
  intro l
  induction l with
  | nil => rfl
  | cons x xs ih =>
    cases hp : p x with
    | true => simp [List.find?_cons, hg, hp]
    | false => simp [List.find?_cons, hg, hp, ih]

theorem findSale_updateSaleRow (db : DB) (tid sid : Uid) (f : SaleRow → SaleRow)
    (hf : ∀ x, (f x).id = x.id) :
    findSale (updateSaleRow db tid f) sid =
      (findSale db sid).map (fun x => if x.id == tid then f x else x) := by
  unfold findSale updateSaleRow
  exact find?_map_pred _ _ (fun x => by by_cases h : x.id == tid <;> simp [h, hf]) _

/-- C3: for every existing sale, recompute returns paid equal to the sum of
all posted payment amounts for that sale, each converted to the sale's
settlement currency (ARS) using the sale's fx_rate_used when the payment
currency differs from it; balance_due equal to max(total − paid, 0); and
receivable_status 'paid' if the sale is cancelled or balance_due ≤ 0,
'partial' if paid > 0 and balance_due > 0, and 'pending' otherwise. -/
theorem recompute_matches_ledger_spec (db : DB) (sid : Uid) (actor : Option Uid)
    (now : Int) (s : SaleRow) (hs : findSale db sid = some s)
    (hcur : ∀ p ∈ db.sale_payments, p.currency = "ARS" ∨ p.currency = "USD") :
    ∃ db' r, rpc_recompute_sale_receivable_v1 db sid actor now = .ok (db', r) ∧
      r.paid_ars = specPaidTotal db sid s.fx_rate_used ∧
      r.balance_due_ars = max (s.total_ars - r.paid_ars) 0 ∧
      r.receivable_status =
        specReceivableStatus (s.status == "cancelled") r.paid_ars r.balance_due_ars := by
  have hex : ∃ q, rpc_recompute_sale_receivable_v1 db sid actor now = .ok q := by
    simp only [rpc_recompute_sale_receivable_v1, hs]
    exact ⟨_, rfl⟩
  obtain ⟨⟨db', r⟩, hq⟩ := hex
  obtain ⟨s', hs', _, hpaid, hbal, hrst, _⟩ :=
    recompute_ok_destruct db sid actor now db' r hq
  rw [hs] at hs'
  injection hs' with hss
  subst hss
  refine ⟨db', r, hq, ?_, hbal, ?_⟩
  · rw [hpaid]
    exact paidSum_eq_spec db sid s.fx_rate_used hcur
  · rw [hrst]
    simp only [specReceivableStatus, beq_iff_eq]

/-- Witness for `recompute_matches_ledger_spec` on a USD sale with a USD and
an ARS payment. -/
theorem recompute_matches_ledger_spec_witness :
    (findSale c3Db 2 = some exSaleUsd ∧
      ∀ p ∈ c3Db.sale_payments, p.currency = "ARS" ∨ p.currency = "USD") ∧
    (∃ db' r, rpc_recompute_sale_receivable_v1 c3Db 2 (some 1) 7 = .ok (db', r) ∧
      r.paid_ars = specPaidTotal c3Db 2 exSaleUsd.fx_rate_used ∧
      r.balance_due_ars = max (exSaleUsd.total_ars - r.paid_ars) 0 ∧
      r.receivable_status =
        specReceivableStatus (exSaleUsd.status == "cancelled") r.paid_ars
          r.balance_due_ars) :=
  ⟨⟨by decide, by decide⟩,
    recompute_matches_ledger_spec c3Db 2 (some 1) 7 exSaleUsd (by decide) (by decide)⟩

/-- C4 counterexample: recompute does not mutate only the sale row's
paid/balance/receivable fields — with an acting user supplied it also
rewrites the sale row's `updated_by` (and `updated_at`): on `c4Db` the
sale's `updated_by` is `some 1` before the call and `some 2` after it. -/
theorem recompute_mutates_updated_by :
    c4Db.sales.map (fun s => s.updated_by) = [some 1] ∧
    (rpc_recompute_sale_receivable_v1 c4Db 1 (some 2) 12).toOption.map
      (fun x => x.1.sales.map (fun s => s.updated_by)) = some [some 2] ∧
    c4Db.sales.map (fun s => s.updated_at) = [100] ∧
    (rpc_recompute_sale_receivable_v1 c4Db 1 (some 2) 12).toOption.map
      (fun x => x.1.sales.map (fun s => s.updated_at)) = some [12] := by
  decide

/-- C4 (amended): recompute is idempotent — its result is derived from the
full payment history, so a second call returns the same paid, balance and
receivable status and only refreshes the audit timestamp — and beyond the
sale row's paid/balance/receivable fields it mutates only that row's
`updated_at`/`updated_by` audit metadata: every other table, the id
allocator, and every other field of every sale row are unchanged. -/
theorem recompute_idempotent_amended (db : DB) (sid : Uid) (actor : Option Uid)
    (now : Int) (db1 : DB) (r1 : RecomputeOut)
    (h1 : rpc_recompute_sale_receivable_v1 db sid actor now = .ok (db1, r1)) :
    (∀ now2 : Int,
      rpc_recompute_sale_receivable_v1 db1 sid actor now2 =
        .ok (updateSaleRow db1 sid (recompPatch r1 actor now2), r1)) ∧
    (∃ s, findSale db sid = some s ∧
      r1.paid_ars = paidSum db sid s.fx_rate_used ∧
      r1.balance_due_ars = max (s.total_ars - r1.paid_ars) 0) ∧
    db1.sale_items = db.sale_items ∧ db1.stock_items = db.stock_items ∧
    db1.sale_payments = db.sale_payments ∧ db1.warranties = db.warranties ∧
    db1.customers = db.customers ∧ db1.trade_ins = db.trade_ins ∧
    db1.audit_logs = db.audit_logs ∧ db1.sale_audit_logs = db.sale_audit_logs ∧
    db1.idempotency_keys = db.idempotency_keys ∧ db1.profiles = db.profiles ∧
    db1.next_id = db.next_id ∧
    (∀ x ∈ db1.sales, ∃ y ∈ db.sales,
      x = { y with
            paid_ars := x.paid_ars, balance_due_ars := x.balance_due_ars
            receivable_status := x.receivable_status, updated_at := x.updated_at
            updated_by := x.updated_by }) := by
  obtain ⟨s, hs, hrid, hpaid, hbal, hrst, hdb⟩ :=
    recompute_ok_destruct db sid actor now db1 r1 h1
  have hsid : (s.id == sid) = true := by
    have := List.find?_some hs
    simpa using this
  subst hdb
  refine ⟨?_, ⟨s, hs, hpaid, hbal⟩, rfl, rfl, rfl, rfl, rfl, rfl, rfl, rfl, rfl, rfl, rfl, ?_⟩
  · intro now2
    have hfind1 : findSale (updateSaleRow db sid (recompPatch r1 actor now)) sid =
        some (recompPatch r1 actor now s) := by
      rw [findSale_updateSaleRow db sid sid (recompPatch r1 actor now) (fun x => rfl), hs]
      have hseq : s.id = sid := by simpa using hsid
      simp [hseq]
    have hout : (⟨sid, paidSum db sid s.fx_rate_used,
        max (s.total_ars - paidSum db sid s.fx_rate_used) 0,
        if s.status = "cancelled" then "paid"
        else if max (s.total_ars - paidSum db sid s.fx_rate_used) 0 ≤ 0 then "paid"
        else if paidSum db sid s.fx_rate_used > 0 then "partial"
        else "pending"⟩ : RecomputeOut) = r1 := by
      have heta : r1 = ⟨r1.sale_id, r1.paid_ars, r1.balance_due_ars,
          r1.receivable_status⟩ := rfl
      rw [heta]
      simp only [RecomputeOut.mk.injEq]
      exact ⟨hrid.symm, hpaid.symm, by rw [hbal, hpaid], by rw [hrst, hbal, hpaid]⟩
    simp only [rpc_recompute_sale_receivable_v1, hfind1]
    rw [← hout]
    rfl
  · intro x hx
    obtain ⟨y, hy, hxy⟩ := List.mem_map.1 hx
    refine ⟨y, hy, ?_⟩
    subst hxy
    by_cases h : (y.id == sid) = true
    · rw [if_pos h]
      rfl
    · rw [if_neg h]

/-- C2: for every non-cancelled sale, cancel_sale returns every stock unit
referenced by its sale items to 'available' with null sale reference and
null sold-at, leaves unrelated stock untouched, deletes all of the sale's
warranties, and sets the sale's status to 'cancelled' with
balance_due_ars = 0 and receivable_status = 'paid'; for an
already-cancelled sale it changes no state and reports the current
cancelled state (re-cancelling is a no-op, not an error). -/
theorem cancel_sale_full_inverse (db : DB) (sid : Uid) (reason : String) (u : Uid)
    (now : Int) (s : SaleRow) (hs : findSale db sid = some s) :
    (s.status = "cancelled" →
      rpc_cancel_sale_v2 db sid reason u now = .ok (db, ⟨sid, "cancelled", true⟩)) ∧
    (s.status ≠ "cancelled" → ∃ db',
      rpc_cancel_sale_v2 db sid reason u now = .ok (db', ⟨sid, "cancelled", false⟩) ∧
      (∀ st ∈ db'.stock_items, st.id ∈ saleStockIds db sid →
        st.status = "available" ∧ st.sale_id = none ∧ st.sold_at = none) ∧
      (∀ st ∈ db'.stock_items, st.id ∉ saleStockIds db sid → st ∈ db.stock_items) ∧
      db'.warranties = db.warranties.filter (fun w => ¬ w.sale_id == sid) ∧
      (∀ s' ∈ db'.sales, s'.id = sid →
        s'.status = "cancelled" ∧ s'.balance_due_ars = 0 ∧
        s'.receivable_status = "paid" ∧ s'.cancel_reason = some reason ∧
        s'.cancelled_by = some u)) := by
  constructor
  · intro hc
    simp only [rpc_cancel_sale_v2, hs, if_pos hc]
  · intro hc
    refine ⟨{ db with
        stock_items := db.stock_items.map (fun st =>
          if (saleStockIds db sid).contains st.id then
            { st with status := "available", sale_id := none, sold_at := none }
          else st)
        warranties := db.warranties.filter (fun w => ¬ w.sale_id == sid)
        sales := db.sales.map (fun x =>
          if x.id == sid then
            { x with
              status := "cancelled", cancelled_at := some now
              cancelled_by := some u, cancel_reason := some reason
              balance_due_ars := 0, receivable_status := "paid"
              updated_at := now, updated_by := some u }
          else x)
        sale_audit_logs := db.sale_audit_logs ++ [⟨sid, "cancelled", u⟩]
        audit_logs := db.audit_logs ++
          [⟨some u, "stock_state_changed", "sale", some sid⟩,
           ⟨some u, "warranty_status_changed", "sale", some sid⟩] }, ?_, ?_, ?_, ?_, ?_⟩
    · simp only [rpc_cancel_sale_v2, hs, if_neg hc]
      rfl
    · intro st hst hmem
      obtain ⟨y, hy, hxy⟩ := List.mem_map.1 hst
      subst hxy
      by_cases h : (saleStockIds db sid).contains y.id
      · rw [if_pos h]
        exact ⟨rfl, rfl, rfl⟩
      · rw [if_neg h] at hmem ⊢
        exact absurd (List.elem_eq_true_of_mem hmem) h
    · intro st hst hmem
      obtain ⟨y, hy, hxy⟩ := List.mem_map.1 hst
      subst hxy
      by_cases h : (saleStockIds db sid).contains y.id
      · rw [if_pos h] at hmem
        exact absurd (List.mem_of_elem_eq_true h) hmem
      · rw [if_neg h]
        exact hy
    · rfl
    · intro s' hs' hid
      obtain ⟨y, hy, hxy⟩ := List.mem_map.1 hs'
      subst hxy
      by_cases h : (y.id == sid) = true
      · rw [if_pos h] at hid ⊢
        exact ⟨rfl, rfl, rfl, rfl, rfl⟩
      · rw [if_neg h] at hid
        exact absurd (by simpa using hid) (by simpa using h)

/-- Witness for `cancel_sale_full_inverse`: cancelling the concrete sale 200
of `c1DbAfterCreate` releases its unit and cancels the sale. -/
theorem cancel_sale_full_inverse_witness :
    (findSale c1DbAfterCreate 200 = some c1SaleRow ∧ c1SaleRow.status ≠ "cancelled") ∧
    (∃ db', rpc_cancel_sale_v2 c1DbAfterCreate 200 "customer returned" 1 11 =
        .ok (db', ⟨200, "cancelled", false⟩) ∧
      (∀ st ∈ db'.stock_items, st.id ∈ saleStockIds c1DbAfterCreate 200 →
        st.status = "available" ∧ st.sale_id = none ∧ st.sold_at = none) ∧
      (∀ st ∈ db'.stock_items, st.id ∉ saleStockIds c1DbAfterCreate 200 →
        st ∈ c1DbAfterCreate.stock_items) ∧
      db'.warranties = c1DbAfterCreate.warranties.filter (fun w => ¬ w.sale_id == 200) ∧
      (∀ s' ∈ db'.sales, s'.id = 200 →
        s'.status = "cancelled" ∧ s'.balance_due_ars = 0 ∧
        s'.receivable_status = "paid" ∧ s'.cancel_reason = some "customer returned" ∧
        s'.cancelled_by = some 1)) :=
  ⟨⟨by decide, by decide⟩,
    (cancel_sale_full_inverse c1DbAfterCreate 200 "customer returned" 1 11 c1SaleRow
      (by decide)).2 (by decide)⟩

/-- C1: the anti-ghost-stock invariant (status = 'sold' ⇔ sale_id references
a non-cancelled sale) holds after create_sale but is NOT preserved by
item-set replacement in update_sale: the engine's `rpc_update_sale_v2`
releases the old unit by setting only its status (leaving the stale
`sale_id`/`sold_at` stamp) and claims the new unit without stamping
`sale_id`/`sold_at`. Concretely, after creating sale 200 for unit 101 and
then replacing its item set with unit 102, unit 101 is 'available' yet
still references the live sale 200, and unit 102 is 'sold' with a null
sale reference. -/
theorem stock_sale_invariant_broken_by_update :
    stockSaleInvariant exDB = true ∧
    stockSaleInvariant c1DbAfterCreate = true ∧
    stockSaleInvariant c1DbAfterUpdate = false ∧
    c1DbAfterUpdate.stock_items.map (fun st => (st.id, st.status, st.sale_id)) =
      [(101, "available", some 200), (102, "sold", none)] ∧
    (findSale c1DbAfterUpdate 200).map (fun s => s.status) = some "completed" := by
  decide

/-- Witness for `recompute_idempotent_amended`: recomputing sale 1 of `c4Db`
twice (at times 12 then 13) returns the same receivable snapshot. -/
theorem recompute_idempotent_amended_witness :
    rpc_recompute_sale_receivable_v1 c4Db 1 (some 2) 12 = .ok (c4Db1, c4R1) ∧
    rpc_recompute_sale_receivable_v1 c4Db1 1 (some 2) 13 =
      .ok (updateSaleRow c4Db1 1 (recompPatch c4R1 (some 2) 13), c4R1) :=
  ⟨by decide,
    (recompute_idempotent_amended c4Db 1 (some 2) 12 c4Db1 c4R1 (by decide)).1 13⟩

theorem claimItems_ok_frame (sid cid : Uid) (d : Int) :
    ∀ (items : List ItemPayload) (db : DB) (acc : List Uid) (db1 : DB) (ids : List Uid),
      claimItems sid cid d db items acc = .ok (db1, ids) →
      db1.sales = db.sales ∧ db1.sale_payments = db.sale_payments ∧
      db1.customers = db.customers ∧ db1.trade_ins = db.trade_ins ∧
      db1.audit_logs = db.audit_logs ∧ db1.sale_audit_logs = db.sale_audit_logs ∧
      db1.idempotency_keys = db.idempotency_keys ∧ db1.profiles = db.profiles ∧
      db1.next_id = db.next_id ∧ (∀ i ∈ items, i.qty.getD 1 = 1)
  | [], db, acc, db1, ids => by
    intro h
    simp [claimItems] at h
    simp [h.1.symm]
  | it :: rest, db, acc, db1, ids => by
    intro h
    simp only [claimItems] at h
    repeat' split at h
    any_goals exact Except.noConfusion h
    have ih := claimItems_ok_frame sid cid d rest _ _ _ _ h
    simp_all

theorem updClaimItems_ok_frame (sid cid : Uid) (d : Int) :
    ∀ (items : List ItemPayload) (db : DB) (acc : Money) (db1 : DB) (t : Money),
      updClaimItems sid cid d db items acc = .ok (db1, t) →
      db1.sales = db.sales ∧ db1.sale_payments = db.sale_payments ∧
      db1.customers = db.customers ∧ db1.trade_ins = db.trade_ins ∧
      db1.audit_logs = db.audit_logs ∧ db1.sale_audit_logs = db.sale_audit_logs ∧
      db1.idempotency_keys = db.idempotency_keys ∧ db1.profiles = db.profiles ∧
      db1.next_id = db.next_id ∧ (∀ i ∈ items, i.qty.getD 1 = 1)
  | [], db, acc, db1, t => by
    intro h
    simp [updClaimItems] at h
    simp [h.1.symm]
  | it :: rest, db, acc, db1, t => by
    intro h
    simp only [updClaimItems] at h
    repeat' split at h
    any_goals exact Except.noConfusion h
    have ih := updClaimItems_ok_frame sid cid d rest _ _ _ _ h
    simp_all

theorem postPayments_ok_frame (sid : Uid) (cur : String) (u : Uid) (now : Int) :
    ∀ (entries : List PaymentItemPayload) (db : DB) (n : Nat) (db1 : DB) (n1 : Nat),
      postPayments sid cur u now db entries n = .ok (db1, n1) →
      db1.sales = db.sales ∧ db1.sale_items = db.sale_items ∧
      db1.stock_items = db.stock_items ∧ db1.warranties = db.warranties ∧
      db1.customers = db.customers ∧ db1.trade_ins = db.trade_ins ∧
      db1.audit_logs = db.audit_logs ∧ db1.sale_audit_logs = db.sale_audit_logs ∧
      db1.idempotency_keys = db.idempotency_keys ∧ db1.profiles = db.profiles ∧
      db.next_id ≤ db1.next_id
  | [], db, n, db1, n1 => by
    intro h
    simp [postPayments] at h
    simp [h.1.symm]
  | pi :: rest, db, n, db1, n1 => by
    intro h
    simp only [postPayments] at h
    repeat' split at h
    any_goals exact Except.noConfusion h
    have ih := postPayments_ok_frame sid cur u now rest _ _ _ _ h
    constructor
    · exact ih.1
    constructor
    · exact ih.2.1
    constructor
    · exact ih.2.2.1
    constructor
    · exact ih.2.2.2.1
    constructor
    · exact ih.2.2.2.2.1
    constructor
    · exact ih.2.2.2.2.2.1
    constructor
    · exact ih.2.2.2.2.2.2.1
    constructor
    · exact ih.2.2.2.2.2.2.2.1
    constructor
    · exact ih.2.2.2.2.2.2.2.2.1
    constructor
    · exact ih.2.2.2.2.2.2.2.2.2.1
    · exact le_trans (Nat.le_succ _) ih.2.2.2.2.2.2.2.2.2.2

theorem upsert_frame (db : DB) (nm ph : String) :
    (upsertCustomerByPhone db nm ph).1.sales = db.sales ∧
    (upsertCustomerByPhone db nm ph).1.sale_items = db.sale_items ∧
    (upsertCustomerByPhone db nm ph).1.stock_items = db.stock_items ∧
    (upsertCustomerByPhone db nm ph).1.sale_payments = db.sale_payments ∧
    (upsertCustomerByPhone db nm ph).1.warranties = db.warranties ∧
    (upsertCustomerByPhone db nm ph).1.trade_ins = db.trade_ins ∧
    (upsertCustomerByPhone db nm ph).1.audit_logs = db.audit_logs ∧
    (upsertCustomerByPhone db nm ph).1.sale_audit_logs = db.sale_audit_logs ∧
    (upsertCustomerByPhone db nm ph).1.idempotency_keys = db.idempotency_keys ∧
    (upsertCustomerByPhone db nm ph).1.profiles = db.profiles ∧
    db.next_id ≤ (upsertCustomerByPhone db nm ph).1.next_id := by
  unfold upsertCustomerByPhone
  split <;> simp

theorem resolveCreateCustomer_ok_frame (db : DB) (p : CreatePayload) (db1 : DB)
    (cid : Uid) (nm ph : Option String)
    (h : resolveCreateCustomer db p = .ok (db1, cid, nm, ph)) :
    db1.sales = db.sales ∧ db1.sale_items = db.sale_items ∧
    db1.stock_items = db.stock_items ∧ db1.sale_payments = db.sale_payments ∧
    db1.warranties = db.warranties ∧ db1.trade_ins = db.trade_ins ∧
    db1.audit_logs = db.audit_logs ∧ db1.sale_audit_logs = db.sale_audit_logs ∧
    db1.idempotency_keys = db.idempotency_keys ∧ db1.profiles = db.profiles ∧
    db.next_id ≤ db1.next_id := by
  simp only [resolveCreateCustomer] at h
  repeat' split at h
  any_goals exact Except.noConfusion h
  all_goals cases h
  all_goals first
    | simp
    | exact upsert_frame db _ _

theorem resolveUpdateCustomer_ok_frame (db : DB) (cid0 : Uid)
    (c : Option CustomerPayload) (db1 : DB) (cid : Uid)
    (h : resolveUpdateCustomer db cid0 c = .ok (db1, cid)) :
    db1.sales = db.sales ∧ db1.sale_items = db.sale_items ∧
    db1.stock_items = db.stock_items ∧ db1.sale_payments = db.sale_payments ∧
    db1.warranties = db.warranties ∧ db1.trade_ins = db.trade_ins ∧
    db1.audit_logs = db.audit_logs ∧ db1.sale_audit_logs = db.sale_audit_logs ∧
    db1.idempotency_keys = db.idempotency_keys ∧ db1.profiles = db.profiles ∧
    db.next_id ≤ db1.next_id := by
  simp only [resolveUpdateCustomer] at h
  repeat' split at h
  any_goals exact Except.noConfusion h
  all_goals cases h
  all_goals first
    | simp
    | exact upsert_frame db _ _

theorem createPayments_ok_frame (dbI : DB) (saleId : Uid) (mt : String)
    (ct : Option String) (cur : String) (ins : Option Int) (sur dep : Option Money)
    (tot : Money) (u : Uid) (now : Int) (pays : Option (List PaymentItemPayload))
    (dbP : DB) (n : Nat)
    (h : createPayments dbI saleId mt ct cur ins sur dep tot u now pays = .ok (dbP, n)) :
    dbP.sales = dbI.sales ∧ dbP.sale_items = dbI.sale_items ∧
    dbP.stock_items = dbI.stock_items ∧ dbP.warranties = dbI.warranties ∧
    dbP.customers = dbI.customers ∧ dbP.trade_ins = dbI.trade_ins ∧
    dbP.audit_logs = dbI.audit_logs ∧ dbP.sale_audit_logs = dbI.sale_audit_logs ∧
    dbP.idempotency_keys = dbI.idempotency_keys ∧ dbP.profiles = dbI.profiles ∧
    dbI.next_id ≤ dbP.next_id := by
  simp only [createPayments] at h
  repeat' split at h
  any_goals exact Except.noConfusion h
  all_goals first
    | (cases h; simp)
    | exact postPayments_ok_frame saleId cur u now _ _ _ _ _ h

/-- The synthesized-payment branch of `createPayments` computed explicitly. -/
theorem createPayments_none (dbI : DB) (saleId : Uid) (mt : String)
    (ct : Option String) (cur : String) (ins : Option Int) (sur dep : Option Money)
    (tot : Money) (u : Uid) (now : Int) :
    createPayments dbI saleId mt ct cur ins sur dep tot u now none =
      .ok ({ dbI with
             sale_payments := dbI.sale_payments ++
              [{ id := dbI.next_id, sale_id := saleId
                 method := strLower mt, currency := cur
                 amount := if dep.getD 0 > 0 ∧ dep.getD 0 < tot then dep.getD 0 else tot
                 card_brand := ct, installments := ins
                 surcharge_pct := sur, note := none
                 created_by := some u, created_at := now }]
             next_id := dbI.next_id + 1 }, 1) := rfl

theorem createTradeIn_frame (dbR : DB) (saleId : Uid) (nm ph : Option String)
    (ti : Option TradeInPayload) :
    (createTradeIn dbR saleId nm ph ti).1.sales = dbR.sales ∧
    (createTradeIn dbR saleId nm ph ti).1.sale_items = dbR.sale_items ∧
    (createTradeIn dbR saleId nm ph ti).1.stock_items = dbR.stock_items ∧
    (createTradeIn dbR saleId nm ph ti).1.sale_payments = dbR.sale_payments ∧
    (createTradeIn dbR saleId nm ph ti).1.warranties = dbR.warranties ∧
    (createTradeIn dbR saleId nm ph ti).1.customers = dbR.customers ∧
    (createTradeIn dbR saleId nm ph ti).1.audit_logs = dbR.audit_logs ∧
    (createTradeIn dbR saleId nm ph ti).1.sale_audit_logs = dbR.sale_audit_logs ∧
    (createTradeIn dbR saleId nm ph ti).1.idempotency_keys = dbR.idempotency_keys ∧
    (createTradeIn dbR saleId nm ph ti).1.profiles = dbR.profiles ∧
    dbR.next_id ≤ (createTradeIn dbR saleId nm ph ti).1.next_id := by
  unfold createTradeIn
  repeat' split
  all_goals simp

theorem SalesEvolution_refl (db : DB) : SalesEvolution db db := by
  refine ⟨le_refl _, fun s' hs' => .inl ⟨s', hs', rfl, .inl rfl⟩, fun s hs => ⟨s, hs, rfl⟩⟩

theorem SalesEvolution_trans (db1 db2 db3 : DB)
    (h1 : SalesEvolution db1 db2) (h2 : SalesEvolution db2 db3) :
    SalesEvolution db1 db3 := by
  obtain ⟨hn1, hf1, hb1⟩ := h1
  obtain ⟨hn2, hf2, hb2⟩ := h2
  refine ⟨le_trans hn1 hn2, ?_, ?_⟩
  · intro s3 hs3
    rcases hf2 s3 hs3 with ⟨s2, hs2, hid, hst⟩ | ⟨hlo, hhi⟩
    · rcases hf1 s2 hs2 with ⟨s1, hs1, hid1, hst1⟩ | ⟨hlo1, hhi1⟩
      · refine .inl ⟨s1, hs1, hid.trans hid1, ?_⟩
        rcases hst with h | h
        · rcases hst1 with h' | h'
          · exact .inl (h.trans h')
          · exact .inr (h ▸ h')
        · exact .inr h
      · exact .inr ⟨hid ▸ hlo1, lt_of_lt_of_le (hid ▸ hhi1) hn2⟩
    · exact .inr ⟨le_trans hn1 hlo, hhi⟩
  · intro s1 hs1
    obtain ⟨s2, hs2, hid2⟩ := hb1 s1 hs1
    obtain ⟨s3, hs3, hid3⟩ := hb2 s2 hs2
    exact ⟨s3, hs3, hid3.trans hid2⟩

theorem se_of_sales_eq (db db' : DB) (hs : db'.sales = db.sales)
    (hn : db.next_id ≤ db'.next_id) : SalesEvolution db db' := by
  refine ⟨hn, ?_, ?_⟩
  · intro s' hs'
    rw [hs] at hs'
    exact .inl ⟨s', hs', rfl, .inl rfl⟩
  · intro s hmem
    rw [← hs] at hmem
    exact ⟨s, hmem, rfl⟩

theorem se_map (db db' : DB) (sid : Uid) (f : SaleRow → SaleRow)
    (hs : db'.sales = db.sales.map (fun s => if s.id == sid then f s else s))
    (hn : db.next_id ≤ db'.next_id)
    (hf : ∀ s, (f s).id = s.id ∧ ((f s).status = s.status ∨ (f s).status = "cancelled")) :
    SalesEvolution db db' := by
  refine ⟨hn, ?_, ?_⟩
  · intro s' hs'
    rw [hs] at hs'
    obtain ⟨y, hy, hxy⟩ := List.mem_map.1 hs'
    subst hxy
    by_cases h : (y.id == sid) = true
    · rw [if_pos h]
      exact .inl ⟨y, hy, (hf y).1, (hf y).2⟩
    · rw [if_neg h]
      exact .inl ⟨y, hy, rfl, .inl rfl⟩
  · intro s hmem
    rw [hs]
    by_cases h : (s.id == sid) = true
    · exact ⟨f s, List.mem_map.2 ⟨s, hmem, by rw [if_pos h]⟩, (hf s).1⟩
    · exact ⟨s, List.mem_map.2 ⟨s, hmem, by rw [if_neg h]⟩, rfl⟩

theorem se_append (db db' : DB) (row : SaleRow)
    (hs : db'.sales = db.sales ++ [row]) (hid : db.next_id ≤ row.id)
    (hlt : row.id < db'.next_id) (hn : db.next_id ≤ db'.next_id) :
    SalesEvolution db db' := by
  refine ⟨hn, ?_, ?_⟩
  · intro s' hs'
    rw [hs] at hs'
    rcases List.mem_append.1 hs' with h | h
    · exact .inl ⟨s', h, rfl, .inl rfl⟩
    · rcases List.mem_singleton.1 h with rfl
      exact .inr ⟨hid, hlt⟩
  · intro s hmem
    exact ⟨s, by rw [hs]; exact List.mem_append_left _ hmem, rfl⟩

theorem recompute_se (db : DB) (sid : Uid) (a : Option Uid) (now : Int)
    (db' : DB) (r : RecomputeOut)
    (h : rpc_recompute_sale_receivable_v1 db sid a now = .ok (db', r)) :
    SalesEvolution db db' := by
  obtain ⟨s, _, _, _, _, _, hdb⟩ := recompute_ok_destruct db sid a now db' r h
  subst hdb
  exact se_map db _ sid _ rfl (le_refl _) (fun s => ⟨rfl, .inl rfl⟩)

theorem recompute_ok_frame (db : DB) (sid : Uid) (a : Option Uid) (now : Int)
    (db' : DB) (r : RecomputeOut)
    (h : rpc_recompute_sale_receivable_v1 db sid a now = .ok (db', r)) :
    db'.sale_items = db.sale_items ∧ db'.stock_items = db.stock_items ∧
    db'.sale_payments = db.sale_payments ∧ db'.warranties = db.warranties ∧
    db'.customers = db.customers ∧ db'.trade_ins = db.trade_ins ∧
    db'.audit_logs = db.audit_logs ∧ db'.sale_audit_logs = db.sale_audit_logs ∧
    db'.idempotency_keys = db.idempotency_keys ∧ db'.profiles = db.profiles ∧
    db'.next_id = db.next_id ∧ db'.sales.length = db.sales.length := by
  obtain ⟨s, _, _, _, _, _, hdb⟩ := recompute_ok_destruct db sid a now db' r h
  subst hdb
  simp [updateSaleRow]

/-- Rows preserved by recompute keep their id, status, total, method,
currency, deposit and fx fields (in both directions of the map). -/
theorem recompute_ok_rows (db : DB) (sid : Uid) (a : Option Uid) (now : Int)
    (db' : DB) (r : RecomputeOut)
    (h : rpc_recompute_sale_receivable_v1 db sid a now = .ok (db', r)) :
    ∀ y ∈ db.sales, ∃ x ∈ db'.sales, x.id = y.id ∧ x.status = y.status ∧
      x.total_ars = y.total_ars ∧ x.payment_method = y.payment_method ∧
      x.currency = y.currency ∧ x.deposit_ars = y.deposit_ars ∧
      x.fx_rate_used = y.fx_rate_used := by
  obtain ⟨s, _, _, _, _, _, hdb⟩ := recompute_ok_destruct db sid a now db' r h
  subst hdb
  intro y hy
  refine ⟨if y.id == sid then recompPatch r a now y else y,
    List.mem_map.2 ⟨y, hy, rfl⟩, ?_⟩
  by_cases hc : (y.id == sid) = true
  · rw [if_pos hc]
    exact ⟨rfl, rfl, rfl, rfl, rfl, rfl, rfl⟩
  · rw [if_neg hc]
    exact ⟨rfl, rfl, rfl, rfl, rfl, rfl, rfl⟩

theorem cancel_se (db : DB) (sid : Uid) (reason : String) (u : Uid) (now : Int)
    (db' : DB) (o : CancelOut)
    (h : rpc_cancel_sale_v2 db sid reason u now = .ok (db', o)) :
    SalesEvolution db db' := by
  simp only [rpc_cancel_sale_v2] at h
  repeat' split at h
  any_goals exact Except.noConfusion h
  all_goals cases h
  · exact SalesEvolution_refl db
  · exact se_map db _ sid _ rfl (le_refl _) (fun s => ⟨rfl, .inr rfl⟩)

theorem register_se (db : DB) (sid : Uid) (p : PaymentItemPayload) (u : Uid)
    (now : Int) (db' : DB) (o : PaymentOut)
    (h : rpc_register_sale_payment_v1 db sid p u now = .ok (db', o)) :
    SalesEvolution db db' := by
  simp only [rpc_register_sale_payment_v1] at h
  repeat' split at h
  any_goals exact Except.noConfusion h
  cases h
  rename_i db2 r hrec
  refine SalesEvolution_trans _ _ _ ?_
    (SalesEvolution_trans _ _ _ (recompute_se _ sid (some u) now db2 r hrec)
      (se_of_sales_eq _ _ rfl (le_refl _)))
  exact se_of_sales_eq _ _ rfl (Nat.le_succ _)

theorem settle_se (db : DB) (sid : Uid) (p : PaymentItemPayload) (u : Uid)
    (now : Int) (db' : DB) (o : PaymentOut)
    (h : rpc_settle_sale_v1 db sid p u now = .ok (db', o)) :
    SalesEvolution db db' := by
  simp only [rpc_settle_sale_v1] at h
  repeat' split at h
  any_goals exact Except.noConfusion h
  all_goals first
    | (cases h; exact recompute_se _ _ _ _ _ _ (by assumption))
    | exact SalesEvolution_trans _ _ _ (recompute_se _ _ _ _ _ _ (by assumption))
        (register_se _ _ _ _ _ _ _ h)

theorem updateItemsStep_ok_frame (dbC : DB) (sid cid : Uid) (d : Int)
    (items : Option (List ItemPayload)) (db1 : DB) (t : Money)
    (h : updateItemsStep dbC sid cid d items = .ok (db1, t)) :
    db1.sales = dbC.sales ∧ db1.sale_payments = dbC.sale_payments ∧
    db1.customers = dbC.customers ∧ db1.trade_ins = dbC.trade_ins ∧
    db1.audit_logs = dbC.audit_logs ∧ db1.sale_audit_logs = dbC.sale_audit_logs ∧
    db1.idempotency_keys = dbC.idempotency_keys ∧ db1.profiles = dbC.profiles ∧
    db1.next_id = dbC.next_id ∧
    (∀ its, items = some its → ∀ i ∈ its, i.qty.getD 1 = 1) := by
  simp only [updateItemsStep] at h
  repeat' split at h
  any_goals exact Except.noConfusion h
  · cases h
    simp
  · have frame := updClaimItems_ok_frame sid cid d _ _ _ _ _ h
    constructor
    · exact frame.1
    refine ⟨frame.2.1, frame.2.2.1, frame.2.2.2.1, frame.2.2.2.2.1,
      frame.2.2.2.2.2.1, frame.2.2.2.2.2.2.1, frame.2.2.2.2.2.2.2.1,
      frame.2.2.2.2.2.2.2.2.1, ?_⟩
    intro its hits
    injection hits with hh
    subst hh
    exact frame.2.2.2.2.2.2.2.2.2

theorem update_ok_anatomy (db : DB) (sid : Uid) (p : UpdatePayload) (u : Uid)
    (now : Int) (db' : DB) (out : UpdateOut)
    (h : rpc_update_sale_v2 db sid p u now = .ok (db', out)) :
    SalesEvolution db db' ∧
    (∀ its, p.items = some its → ∀ i ∈ its, i.qty.getD 1 = 1) := by
  simp only [rpc_update_sale_v2] at h
  repeat' split at h
  any_goals exact Except.noConfusion h
  cases h
  have hcf := resolveUpdateCustomer_ok_frame _ _ _ _ _ (by assumption)
  have hif := updateItemsStep_ok_frame _ _ _ _ _ _ _ (by assumption)
  constructor
  · refine SalesEvolution_trans _ _ _ (se_of_sales_eq _ _ hcf.1 hcf.2.2.2.2.2.2.2.2.2.2) ?_
    refine SalesEvolution_trans _ _ _ (se_of_sales_eq _ _ hif.1 (le_of_eq hif.2.2.2.2.2.2.2.2.1.symm)) ?_
    exact se_map _ _ sid _ rfl (le_refl _) (fun s => ⟨rfl, .inl rfl⟩)
  · exact hif.2.2.2.2.2.2.2.2.2

/-- Everything a successful `rpc_create_sale_v2` guarantees: the validated
item list and server total, the stored sale row, the id bounds, the frame on
untouched tables, the sales-table evolution, and the synthesized payment
when no explicit payments array was supplied. -/
theorem create_ok_anatomy (db : DB) (p : CreatePayload) (u : Uid) (now : Int)
    (db' : DB) (out : CreateOut)
    (h : rpc_create_sale_v2 db p u now = .ok (db', out)) :
    (∃ items serverTotal, p.items = some items ∧
      sumItemsValidate items 0 = .ok serverTotal ∧
      totalMismatch p.total_ars serverTotal = false ∧
      out.total_ars = serverTotal ∧ out.server_total_ars = serverTotal ∧
      (∀ i ∈ items, i.qty.getD 1 = 1)) ∧
    db'.idempotency_keys = db.idempotency_keys ∧
    db'.profiles = db.profiles ∧
    db'.sales.length = db.sales.length + 1 ∧
    SalesEvolution db db' ∧
    db.next_id ≤ out.sale_id ∧ out.sale_id < db'.next_id ∧
    (∃ srow ∈ db'.sales, srow.id = out.sale_id ∧ srow.status = "completed" ∧
      srow.total_ars = out.total_ars ∧
      (p.payments = none → ∃ prow,
        db'.sale_payments = db.sale_payments ++ [prow] ∧
        prow.sale_id = out.sale_id ∧
        prow.method = strLower srow.payment_method ∧
        prow.currency = srow.currency ∧
        prow.amount = (if srow.deposit_ars.getD 0 > 0 ∧ srow.deposit_ars.getD 0 < out.total_ars
                       then srow.deposit_ars.getD 0 else out.total_ars))) := by
  simp only [rpc_create_sale_v2] at h
  repeat' split at h
  any_goals exact Except.noConfusion h
  cases h
  rename_i x6 saleDate hsd x5 items hit hlen x4 serverTotal hsum hpos hmm2 hsel x3
    dbC cid custName custPhone hcust hmeth hcur hfx x2 dbI stockIds hclaim x1 dbP
    payCount hpay x0 dbR recv hrec
  have hcf := resolveCreateCustomer_ok_frame _ _ _ _ _ _ hcust
  have hclf := claimItems_ok_frame _ _ _ _ _ _ _ _ hclaim
  have hpf := createPayments_ok_frame _ _ _ _ _ _ _ _ _ _ _ _ _ _ hpay
  have hrf := recompute_ok_frame _ _ _ _ _ _ hrec
  have hrows := recompute_ok_rows _ _ _ _ _ _ hrec
  have htf := createTradeIn_frame dbR dbC.next_id custName custPhone p.trade_in
  refine ⟨⟨items, serverTotal, hit, hsum, by simpa using hmm2, rfl, rfl,
    hclf.2.2.2.2.2.2.2.2.2⟩, ?_, ?_, ?_, ?_, ?_, ?_, ?_⟩
  · exact htf.2.2.2.2.2.2.2.2.1.trans (hrf.2.2.2.2.2.2.2.2.1.trans
      (hpf.2.2.2.2.2.2.2.2.1.trans (hclf.2.2.2.2.2.2.1.trans
        hcf.2.2.2.2.2.2.2.2.1)))
  · exact htf.2.2.2.2.2.2.2.2.2.1.trans (hrf.2.2.2.2.2.2.2.2.2.1.trans
      (hpf.2.2.2.2.2.2.2.2.2.1.trans (hclf.2.2.2.2.2.2.2.1.trans
        hcf.2.2.2.2.2.2.2.2.2.1)))
  · calc ((createTradeIn dbR dbC.next_id custName custPhone p.trade_in).1).sales.length
        = dbR.sales.length := by rw [htf.1]
      _ = dbP.sales.length := hrf.2.2.2.2.2.2.2.2.2.2.2
      _ = dbI.sales.length := by rw [hpf.1]
      _ = dbC.sales.length + 1 := by rw [hclf.1]; simp
      _ = db.sales.length + 1 := by rw [hcf.1]
  · refine SalesEvolution_trans _ _ _ (se_of_sales_eq _ _ hcf.1 hcf.2.2.2.2.2.2.2.2.2.2) ?_
    refine SalesEvolution_trans _ _ _
      (se_append dbC dbI _ hclf.1 (le_refl _)
        (lt_of_lt_of_le (Nat.lt_succ_self _) (le_of_eq hclf.2.2.2.2.2.2.2.2.1.symm))
        (le_trans (Nat.le_succ _) (le_of_eq hclf.2.2.2.2.2.2.2.2.1.symm))) ?_
    refine SalesEvolution_trans _ _ _
      (se_of_sales_eq _ _ hpf.1 hpf.2.2.2.2.2.2.2.2.2.2) ?_
    refine SalesEvolution_trans _ _ _ (recompute_se _ _ _ _ _ _ hrec) ?_
    refine SalesEvolution_trans _ _ _
      (se_of_sales_eq _ _ htf.1 htf.2.2.2.2.2.2.2.2.2.2) ?_
    exact se_of_sales_eq _ _ rfl (le_refl _)
  · exact hcf.2.2.2.2.2.2.2.2.2.2
  · show dbC.next_id < ((createTradeIn dbR dbC.next_id custName custPhone p.trade_in).1).next_id
    have h1 : dbC.next_id < dbI.next_id := by
      rw [hclf.2.2.2.2.2.2.2.2.1]
      exact Nat.lt_succ_self _
    have h2 : dbI.next_id ≤ dbP.next_id := hpf.2.2.2.2.2.2.2.2.2.2
    have h3 : dbR.next_id = dbP.next_id := hrf.2.2.2.2.2.2.2.2.2.2.1
    have h4 : dbR.next_id ≤ _ := htf.2.2.2.2.2.2.2.2.2.2
    exact lt_of_lt_of_le (lt_of_lt_of_le h1 h2) (le_trans (le_of_eq h3.symm) h4)
  · have hmemP : (⟨dbC.next_id, saleDate, cid, p.seller_id.getD u,
        ((nullifEmpty p.payment_method).orElse (fun _ =>
          nullifEmpty (p.payment.bind (fun x => x.method)))).getD "cash",
        (nullifEmpty p.card_brand).orElse (fun _ =>
          nullifEmpty (p.payment.bind (fun x => x.card_brand))),
        p.installments.orElse (fun _ => p.payment.bind (fun x => x.installments)),
        p.surcharge_pct.orElse (fun _ => p.payment.bind (fun x => x.surcharge_pct)),
        p.deposit_ars.orElse (fun _ => p.payment.bind (fun x => x.deposit_ars)),
        serverTotal, 0, "pending", u, "completed", now, some u,
        strUpper ((nullifEmpty p.currency).getD "ARS"), p.fx_rate_used,
        computeTotalUsd p.total_usd (strUpper ((nullifEmpty p.currency).getD "ARS"))
          p.fx_rate_used serverTotal,
        p.balance_due_ars.getD (max (serverTotal -
          (p.deposit_ars.orElse (fun _ => p.payment.bind (fun x => x.deposit_ars))).getD 0) 0),
        nullifEmpty p.details, nullifEmpty p.notes, p.includes_cube_20w.getD false,
        none, none, none⟩ : SaleRow) ∈ dbP.sales := by
      rw [hpf.1, hclf.1]
      exact List.mem_append_right _ (List.mem_singleton.2 rfl)
    obtain ⟨srow, hsrowR, hid, hst, htot, hpm, hcurr, hdep, hfxx⟩ := hrows _ hmemP
    refine ⟨srow, ?_, ?_, ?_, ?_, ?_⟩
    · show srow ∈ ((createTradeIn dbR dbC.next_id custName custPhone p.trade_in).1).sales
      rw [htf.1]
      exact hsrowR
    · exact hid
    · exact hst
    · exact htot
    · intro hpnone
      rw [hpnone, createPayments_none] at hpay
      cases hpay
      refine ⟨{ id := dbI.next_id, sale_id := dbC.next_id
                method := strLower (((nullifEmpty p.payment_method).orElse (fun _ =>
                  nullifEmpty (p.payment.bind (fun x => x.method)))).getD "cash")
                currency := strUpper ((nullifEmpty p.currency).getD "ARS")
                amount :=
                  if (p.deposit_ars.orElse (fun _ =>
                        p.payment.bind (fun x => x.deposit_ars))).getD 0 > 0 ∧
                      (p.deposit_ars.orElse (fun _ =>
                        p.payment.bind (fun x => x.deposit_ars))).getD 0 < serverTotal
                  then (p.deposit_ars.orElse (fun _ =>
                        p.payment.bind (fun x => x.deposit_ars))).getD 0
                  else serverTotal
                card_brand := (nullifEmpty p.card_brand).orElse (fun _ =>
                  nullifEmpty (p.payment.bind (fun x => x.card_brand)))
                installments := p.installments.orElse (fun _ =>
                  p.payment.bind (fun x => x.installments))
                surcharge_pct := p.surcharge_pct.orElse (fun _ =>
                  p.payment.bind (fun x => x.surcharge_pct))
                note := none, created_by := some u, created_at := now }, ?_, rfl, ?_, ?_, ?_⟩
      · have hpeq : dbI.sale_payments = db.sale_payments :=
          hclf.2.1.trans hcf.2.2.2.1
        show ((createTradeIn dbR dbC.next_id custName custPhone p.trade_in).1).sale_payments = _
        refine htf.2.2.2.1.trans (hrf.2.2.1.trans ?_)
        show dbI.sale_payments ++ [_] = _
        rw [hpeq]
      · rw [hpm]
      · rw [hcurr]
      · rw [hdep]

theorem saleCancelled_find (db : DB) (sid : Uid) (hc : saleCancelled db sid) :
    ∃ s, findSale db sid = some s ∧ s.status = "cancelled" := by
  obtain ⟨⟨s0, hs0, hid0⟩, hall⟩ := hc
  have hsome : (db.sales.find? (fun x => x.id == sid)).isSome := by
    rw [List.find?_isSome]
    exact ⟨s0, hs0, by simpa using hid0⟩
  obtain ⟨s, hs⟩ := Option.isSome_iff_exists.1 hsome
  have hmem := List.mem_of_find?_eq_some hs
  have hp := List.find?_some hs
  simp at hp
  exact ⟨s, hs, hall s hmem hp⟩

theorem update_cancelled_conflict (db : DB) (sid : Uid) (p : UpdatePayload)
    (u : Uid) (now : Int) (s : SaleRow) (hs : findSale db sid = some s)
    (hc : s.status = "cancelled") :
    rpc_update_sale_v2 db sid p u now = .error ⟨"conflict", "sale_already_cancelled"⟩ := by
  simp only [rpc_update_sale_v2, hs, hc]
  rfl

theorem register_cancelled_conflict (db : DB) (sid : Uid) (p : PaymentItemPayload)
    (u : Uid) (now : Int) (s : SaleRow) (hs : findSale db sid = some s)
    (hc : s.status = "cancelled") :
    rpc_register_sale_payment_v1 db sid p u now = .error ⟨"conflict", "sale_cancelled"⟩ := by
  simp only [rpc_register_sale_payment_v1, hs, hc]
  rfl

theorem settle_cancelled_conflict (db : DB) (sid : Uid) (p : PaymentItemPayload)
    (u : Uid) (now : Int) (s : SaleRow) (hs : findSale db sid = some s)
    (hc : s.status = "cancelled") :
    rpc_settle_sale_v1 db sid p u now = .error ⟨"conflict", "sale_cancelled"⟩ := by
  simp only [rpc_settle_sale_v1, hs, hc]
  rfl

theorem cancel_cancelled_noop (db : DB) (sid : Uid) (reason : String)
    (u : Uid) (now : Int) (s : SaleRow) (hs : findSale db sid = some s)
    (hc : s.status = "cancelled") :
    rpc_cancel_sale_v2 db sid reason u now = .ok (db, ⟨sid, "cancelled", true⟩) := by
  simp only [rpc_cancel_sale_v2, hs, hc]
  rfl

theorem applyOp_se (db : DB) (op : EngineOp) (now : Int) :
    SalesEvolution db (applyOp db op now) := by
  cases op with
  | createSale p u =>
    simp only [applyOp]
    split
    · exact (create_ok_anatomy _ _ _ _ _ _ (by assumption)).2.2.2.2.1
    · exact SalesEvolution_refl db
  | updateSale sid p u =>
    simp only [applyOp]
    split
    · exact (update_ok_anatomy _ _ _ _ _ _ _ (by assumption)).1
    · exact SalesEvolution_refl db
  | cancelSale sid reason u =>
    simp only [applyOp]
    split
    · exact cancel_se _ _ _ _ _ _ _ (by assumption)
    · exact SalesEvolution_refl db
  | registerPayment sid p u =>
    simp only [applyOp]
    split
    · exact register_se _ _ _ _ _ _ _ (by assumption)
    · exact SalesEvolution_refl db
  | settleSale sid p u =>
    simp only [applyOp]
    split
    · exact settle_se _ _ _ _ _ _ _ (by assumption)
    · exact SalesEvolution_refl db
  | recompute sid a =>
    simp only [applyOp]
    split
    · exact recompute_se _ _ _ _ _ _ (by assumption)
    · exact SalesEvolution_refl db

theorem se_preserves (db db' : DB) (sid : Uid) (hse : SalesEvolution db db')
    (hwf : salesIdsLt db) (hc : saleCancelled db sid) :
    salesIdsLt db' ∧ saleCancelled db' sid := by
  obtain ⟨hn, hfwd, hbwd⟩ := hse
  obtain ⟨⟨s0, hs0, hid0⟩, hall⟩ := hc
  constructor
  · intro s' hs'
    rcases hfwd s' hs' with ⟨s, hsmem, hid, _⟩ | ⟨_, hhi⟩
    · exact lt_of_lt_of_le (by rw [hid]; exact hwf s hsmem) hn
    · exact hhi
  · constructor
    · obtain ⟨s', hs', hid'⟩ := hbwd s0 hs0
      exact ⟨s', hs', hid'.trans hid0⟩
    · intro s' hs' hid'
      rcases hfwd s' hs' with ⟨s, hsmem, hid, hst⟩ | ⟨hlo, _⟩
      · rcases hst with h | h
        · exact h.trans (hall s hsmem (hid.symm.trans hid'))
        · exact h
      · have h1 : sid < db.next_id := hid0 ▸ hwf s0 hs0
        have h2 : db.next_id ≤ sid := hid' ▸ hlo
        exact absurd h1 (not_lt.2 h2)

theorem applyOps_preserves (sid : Uid) :
    ∀ (ops : List (EngineOp × Int)) (db : DB),
      salesIdsLt db → saleCancelled db sid →
      salesIdsLt (applyOps db ops) ∧ saleCancelled (applyOps db ops) sid
  | [], db => fun hwf hc => ⟨hwf, hc⟩
  | (op, t) :: rest, db => fun hwf hc => by
    have step := se_preserves db (applyOp db op t) sid (applyOp_se db op t) hwf hc
    exact applyOps_preserves sid rest (applyOp db op t) step.1 step.2

/-- C8: the lifecycle status 'cancelled' is terminal. Once a sale is
cancelled (under the id-allocator well-formedness invariant), update_sale,
register_payment and settle_sale each fail with a conflict error (and hence
leave all state unchanged, the transaction aborting), re-cancel succeeds as
a state-preserving no-op returning the current cancelled state, and no
sequence of engine operations ever changes the sale's status away from
'cancelled'. -/
theorem cancelled_status_terminal (db : DB) (sid : Uid)
    (hwf : salesIdsLt db) (hc : saleCancelled db sid) :
    (∀ ops : List (EngineOp × Int), saleCancelled (applyOps db ops) sid) ∧
    (∀ p u now, rpc_update_sale_v2 db sid p u now =
      .error ⟨"conflict", "sale_already_cancelled"⟩) ∧
    (∀ p u now, rpc_register_sale_payment_v1 db sid p u now =
      .error ⟨"conflict", "sale_cancelled"⟩) ∧
    (∀ p u now, rpc_settle_sale_v1 db sid p u now =
      .error ⟨"conflict", "sale_cancelled"⟩) ∧
    (∀ reason u now, rpc_cancel_sale_v2 db sid reason u now =
      .ok (db, ⟨sid, "cancelled", true⟩)) := by
  obtain ⟨s, hs, hcs⟩ := saleCancelled_find db sid hc
  exact ⟨fun ops => (applyOps_preserves sid ops db hwf hc).2,
    fun p u now => update_cancelled_conflict db sid p u now s hs hcs,
    fun p u now => register_cancelled_conflict db sid p u now s hs hcs,
    fun p u now => settle_cancelled_conflict db sid p u now s hs hcs,
    fun reason u now => cancel_cancelled_noop db sid reason u now s hs hcs⟩

/-- C7: when a create call supplies no explicit payments array, exactly one
payment row is synthesized and appended to the ledger, with method and
currency taken from the stored sale row and amount equal to the deposit when
a positive deposit strictly smaller than the computed total was given, and
equal to the full computed total otherwise. -/
theorem create_default_payment_synthesis (db : DB) (p : CreatePayload) (u : Uid)
    (now : Int) (db' : DB) (out : CreateOut)
    (h : rpc_create_sale_v2 db p u now = .ok (db', out)) (hnp : p.payments = none) :
    ∃ srow ∈ db'.sales, srow.id = out.sale_id ∧
      ∃ prow, db'.sale_payments = db.sale_payments ++ [prow] ∧
        prow.sale_id = out.sale_id ∧
        prow.method = strLower srow.payment_method ∧
        prow.currency = srow.currency ∧
        prow.amount = (if srow.deposit_ars.getD 0 > 0 ∧ srow.deposit_ars.getD 0 < out.total_ars
                       then srow.deposit_ars.getD 0 else out.total_ars) := by
  obtain ⟨srow, hmem, hid, hst, htot, hpay⟩ :=
    (create_ok_anatomy db p u now db' out h).2.2.2.2.2.2.2
  obtain ⟨prow, hp1, hp2, hp3, hp4, hp5⟩ := hpay hnp
  exact ⟨srow, hmem, hid, prow, hp1, hp2, hp3, hp4, hp5⟩

/-- Witness for `create_default_payment_synthesis`: the concrete create on
`exDB` with no payments array yields exactly one synthesized full-total
payment. -/
theorem create_default_payment_synthesis_witness :
    (rpc_create_sale_v2 exDB exCreatePayload 1 5 = .ok (c7Db, c7Out) ∧
     exCreatePayload.payments = none) ∧
    ∃ srow ∈ c7Db.sales, srow.id = c7Out.sale_id ∧
      ∃ prow, c7Db.sale_payments = exDB.sale_payments ++ [prow] ∧
        prow.sale_id = c7Out.sale_id ∧
        prow.method = strLower srow.payment_method ∧
        prow.currency = srow.currency ∧
        prow.amount = (if srow.deposit_ars.getD 0 > 0 ∧ srow.deposit_ars.getD 0 < c7Out.total_ars
                       then srow.deposit_ars.getD 0 else c7Out.total_ars) :=
  ⟨⟨by decide, rfl⟩,
   create_default_payment_synthesis exDB exCreatePayload 1 5 c7Db c7Out (by decide) rfl⟩

/-- Witness for `cancelled_status_terminal`: on `c8Db` the cancelled sale 1
stays cancelled through a concrete operation sequence, and an update attempt
answers the conflict. -/
theorem cancelled_status_terminal_witness :
    (salesIdsLt c8Db ∧ saleCancelled c8Db 1) ∧
    saleCancelled
      (applyOps c8Db [(.cancelSale 1 "again" 2, 7), (.recompute 1 (some 2), 8)]) 1 ∧
    rpc_update_sale_v2 c8Db 1 exUpdatePayload 2 9 =
      .error ⟨"conflict", "sale_already_cancelled"⟩ :=
  ⟨⟨by unfold salesIdsLt; decide, by unfold saleCancelled; decide⟩,
   (cancelled_status_terminal c8Db 1 (by unfold salesIdsLt; decide)
     (by unfold saleCancelled; decide)).1
     [(.cancelSale 1 "again" 2, 7), (.recompute 1 (some 2), 8)],
   (cancelled_status_terminal c8Db 1 (by unfold salesIdsLt; decide)
     (by unfold saleCancelled; decide)).2.1 exUpdatePayload 2 9⟩

theorem sumItemsValidate_ok_sum :
    ∀ (items : List ItemPayload) (acc T : Money),
      sumItemsValidate items acc = .ok T → T = acc + serverSumItems items
  | [], acc, T, h => by
    simp only [sumItemsValidate] at h
    cases h
    simp [serverSumItems]
  | it :: rest, acc, T, h => by
    simp only [sumItemsValidate] at h
    split at h
    · exact Except.noConfusion h
    · split at h
      · exact Except.noConfusion h
      · have hrec := sumItemsValidate_ok_sum rest
          (acc + ((it.qty.getD 1 : Int) : Money) * it.sale_price_ars.getD 0) T h
        simp only [serverSumItems, List.map_cons, List.sum_cons] at hrec ⊢
        rw [hrec]
        ring

theorem create_mismatch_error (db : DB) (p : CreatePayload) (u : Uid) (now : Int)
    (d : Int) (items : List ItemPayload) (T : Money)
    (hd : p.sale_date = some d) (hit : p.items = some items)
    (hsum : sumItemsValidate items 0 = .ok T) (hpos : 0 < T)
    (hmm : totalMismatch p.total_ars T = true) :
    rpc_create_sale_v2 db p u now = .error ⟨"total_mismatch", "input_server_differ"⟩ := by
  have hlen : ¬ items.length = 0 := by
    intro h0
    rw [List.length_eq_zero] at h0
    subst h0
    simp only [sumItemsValidate] at hsum
    cases hsum
    exact absurd hpos (lt_irrefl 0)
  simp only [rpc_create_sale_v2, hd, hit, hsum]
  rw [if_neg hlen, if_neg (not_le.2 hpos), if_pos hmm]

/-- C5: the server-side total is Σ(qty × price) over the request's items;
a declared total differing from it by more than 0.01 makes the HTTP handler
answer 422 total_mismatch with the database untouched, and makes the engine
abort with total_mismatch (rolling the transaction back); on success the
stored sale total equals the computed sum exactly — a mismatching declared
total is never silently corrected. -/
theorem create_total_integrity (db : DB) (u : Uid) (k : Option String)
    (req : CreateReq) (now : Int) :
    (saleCreateSchemaOk req = true →
      totalMismatch (normalizeCreate req).input_total_ars
        (computeServerTotalReq req.items) = true →
      handleCreateSale db u k req now = (⟨422, .failure "total_mismatch"⟩, db)) ∧
    (∀ (p : CreatePayload) (d : Int) (items : List ItemPayload) (T : Money),
      p.sale_date = some d → p.items = some items →
      sumItemsValidate items 0 = .ok T → 0 < T →
      totalMismatch p.total_ars T = true →
      rpc_create_sale_v2 db p u now = .error ⟨"total_mismatch", "input_server_differ"⟩) ∧
    (∀ (p : CreatePayload) (db' : DB) (out : CreateOut),
      rpc_create_sale_v2 db p u now = .ok (db', out) →
      ∃ items, p.items = some items ∧ out.total_ars = serverSumItems items ∧
        ∃ srow ∈ db'.sales, srow.id = out.sale_id ∧
          srow.total_ars = serverSumItems items) := by
  refine ⟨?_, ?_, ?_⟩
  · intro hs hmm
    simp [handleCreateSale, hs, hmm]
  · intro p d items T hd hit hsum hpos hmm
    exact create_mismatch_error db p u now d items T hd hit hsum hpos hmm
  · intro p db' out h
    obtain ⟨⟨items, T, hit, hsum, hmf, htot, hsrv, hq⟩, hidem, hprof, hlen, hse,
      hlo, hhi, srow, hmem, hid, hst, hstot, hpay⟩ := create_ok_anatomy db p u now db' out h
    have hTs : T = serverSumItems items := by
      have h0 := sumItemsValidate_ok_sum items 0 T hsum
      simpa using h0
    exact ⟨items, hit, htot.trans hTs, srow, hmem, hid, hstot.trans (htot.trans hTs)⟩

/-- Witness for `create_total_integrity`: the mismatching request `c5BadReq`
is answered 422 with `exDB` untouched, the mismatching payload `c5BadPayload`
aborts with total_mismatch, and the successful `exCreatePayload` stores
exactly the item sum 1200. -/
theorem create_total_integrity_witness :
    (saleCreateSchemaOk c5BadReq = true ∧
     totalMismatch (normalizeCreate c5BadReq).input_total_ars
       (computeServerTotalReq c5BadReq.items) = true ∧
     handleCreateSale exDB 1 none c5BadReq 5 = (⟨422, .failure "total_mismatch"⟩, exDB)) ∧
    (rpc_create_sale_v2 exDB c5BadPayload 1 5 =
      .error ⟨"total_mismatch", "input_server_differ"⟩) ∧
    (rpc_create_sale_v2 exDB exCreatePayload 1 5 = .ok (c7Db, c7Out) ∧
     ∃ items, exCreatePayload.items = some items ∧ c7Out.total_ars = serverSumItems items ∧
       ∃ srow ∈ c7Db.sales, srow.id = c7Out.sale_id ∧
         srow.total_ars = serverSumItems items) :=
  ⟨⟨by decide, by decide,
    (create_total_integrity exDB 1 none c5BadReq 5).1 (by decide) (by decide)⟩,
   (create_total_integrity exDB 1 none c5BadReq 5).2.1 c5BadPayload 1000
     [⟨some 101, some 1, some 1200⟩] 1200 rfl rfl (by decide) (by decide) (by decide),
   ⟨by decide,
    (create_total_integrity exDB 1 none c5BadReq 5).2.2 exCreatePayload c7Db c7Out (by decide)⟩⟩

/-- C10: a create or item-replacing patch request naming the same
stock_item_id on more than one line is rejected by the zod superRefine
duplicate check with 400 validation_error before any transaction opens,
leaving the database unchanged. -/
theorem duplicate_stock_ids_rejected (db : DB) (u : Uid) (now : Int) :
    (∀ (k : Option String) (req : CreateReq),
      hasDupIds (req.items.map (fun i => i.stock_item_id)) = true →
      handleCreateSale db u k req now = (⟨400, .failure "validation_error"⟩, db)) ∧
    (∀ (sid : Uid) (req : PatchReq) (its : List SaleItemReq), req.items = some its →
      hasDupIds (its.map (fun i => i.stock_item_id)) = true →
      handlePatchSale db u sid req now = (⟨400, some "validation_error", none⟩, db)) := by
  constructor
  · intro k req hdup
    have hbad : saleCreateSchemaOk req = false := by
      simp [saleCreateSchemaOk, hdup]
    simp [handleCreateSale, hbad]
  · intro sid req its hits hdup
    have hbad : salePatchSchemaOk req = false := by
      simp [salePatchSchemaOk, hits, hdup]
    simp [handlePatchSale, hbad]

/-- Witness for `duplicate_stock_ids_rejected`: requests `c10Req` and
`c10Patch` both list unit 101 twice and are answered 400 on `exDB`. -/
theorem duplicate_stock_ids_rejected_witness :
    (hasDupIds (c10Req.items.map (fun i => i.stock_item_id)) = true ∧
     handleCreateSale exDB 1 none c10Req 5 = (⟨400, .failure "validation_error"⟩, exDB)) ∧
    (c10Patch.items = some [⟨101, 1, 600⟩, ⟨101, 1, 600⟩] ∧
     handlePatchSale exDB 1 200 c10Patch 5 = (⟨400, some "validation_error", none⟩, exDB)) :=
  ⟨⟨by decide, (duplicate_stock_ids_rejected exDB 1 5).1 none c10Req (by decide)⟩,
   ⟨rfl, (duplicate_stock_ids_rejected exDB 1 5).2 200 c10Patch
     [⟨101, 1, 600⟩, ⟨101, 1, 600⟩] rfl (by decide)⟩⟩

theorem mapRpcError_cases (e : Err) :
    (mapRpcError e).1 = 422 ∨ (mapRpcError e).1 = 404 ∨
    (mapRpcError e).1 = 409 ∨ (mapRpcError e).1 = 400 := by
  unfold mapRpcError
  repeat' split
  all_goals decide

theorem mapRpcError_fst_ne_200 (e : Err) : ¬ (mapRpcError e).1 = 200 := by
  rcases mapRpcError_cases e with h | h | h | h <;> rw [h] <;> decide

theorem mapRpcError_fst_ne_201 (e : Err) : ¬ (mapRpcError e).1 = 201 := by
  rcases mapRpcError_cases e with h | h | h | h <;> rw [h] <;> decide

theorem mapRpcError_fst_ne_zero (e : Err) : ¬ (mapRpcError e).1 = 0 := by
  rcases mapRpcError_cases e with h | h | h | h <;> rw [h] <;> decide

theorem persistIdemResult_frame (db : DB) (i : Option Uid) (s : Int) (b : Body) :
    (persistIdemResult db i s b).sales = db.sales ∧
    (persistIdemResult db i s b).stock_items = db.stock_items ∧
    (persistIdemResult db i s b).sale_items = db.sale_items ∧
    (persistIdemResult db i s b).warranties = db.warranties ∧
    (persistIdemResult db i s b).sale_payments = db.sale_payments ∧
    (persistIdemResult db i s b).next_id = db.next_id := by
  cases i <;> simp [persistIdemResult]

theorem create_rpc_qty_ne_one_not_ok (db : DB) (p : CreatePayload) (u : Uid)
    (now : Int) (items : List ItemPayload) (hit : p.items = some items)
    (i : ItemPayload) (him : i ∈ items) (hq : ¬ i.qty.getD 1 = 1) :
    ∀ db' out, ¬ rpc_create_sale_v2 db p u now = .ok (db', out) := by
  intro db' out h
  obtain ⟨items', T, hit', _, _, _, _, hall⟩ := (create_ok_anatomy db p u now db' out h).1
  rw [hit] at hit'
  injection hit' with he
  subst he
  exact hq (hall i him)

theorem runCreateRpc_never_ok (db : DB) (u : Uid) (idemId : Option Uid)
    (norm : NormalizedCreate) (now : Int)
    (hno : ∀ db' out, ¬ rpc_create_sale_v2 db norm.rpc u now = .ok (db', out)) :
    ∃ e, rpc_create_sale_v2 db norm.rpc u now = .error e ∧
      runCreateRpc db u idemId norm now =
        (⟨(mapRpcError e).1, Body.failure (mapRpcError e).2⟩,
         persistIdemResult db idemId (mapRpcError e).1 (Body.failure (mapRpcError e).2)) := by
  cases heq : rpc_create_sale_v2 db norm.rpc u now with
  | ok pr =>
    obtain ⟨d0, o0⟩ := pr
    exact absurd heq (hno d0 o0)
  | error e => exact ⟨e, rfl, by simp [runCreateRpc, heq]⟩

theorem totalMismatch_self (t : Money) : totalMismatch (some t) t = false := by
  simp only [totalMismatch, sub_self, abs_zero]
  decide

theorem computeServerTotalReq_nonneg :
    ∀ (l : List SaleItemReq), (∀ j ∈ l, 1 ≤ j.qty ∧ 0 < j.sale_price_ars) →
      0 ≤ computeServerTotalReq l
  | [], _ => le_of_eq rfl
  | j :: t, hall => by
    have hj := hall j (List.mem_cons_self j t)
    have ht := computeServerTotalReq_nonneg t
      (fun x hx => hall x (List.mem_cons_of_mem j hx))
    have hq1 : (1 : Money) ≤ (j.qty : Money) := by exact_mod_cast hj.1
    have hterm : 0 ≤ (j.qty : Money) * j.sale_price_ars :=
      le_of_lt (mul_pos (lt_of_lt_of_le one_pos hq1) hj.2)
    simp only [computeServerTotalReq, List.map_cons, List.sum_cons]
    exact add_nonneg hterm ht

theorem computeServerTotalReq_pos (i : SaleItemReq) (rest : List SaleItemReq)
    (hall : ∀ j ∈ i :: rest, 1 ≤ j.qty ∧ 0 < j.sale_price_ars) :
    0 < computeServerTotalReq (i :: rest) := by
  have hi := hall i (List.mem_cons_self i rest)
  have hrest := computeServerTotalReq_nonneg rest
    (fun x hx => hall x (List.mem_cons_of_mem i hx))
  have hq1 : (1 : Money) ≤ (i.qty : Money) := by exact_mod_cast hi.1
  have hterm : 0 < (i.qty : Money) * i.sale_price_ars :=
    mul_pos (lt_of_lt_of_le one_pos hq1) hi.2
  simp only [computeServerTotalReq, List.map_cons, List.sum_cons]
  exact add_pos_of_pos_of_nonneg hterm hrest

theorem sumItemsValidate_map_ok :
    ∀ (l : List SaleItemReq) (acc : Money),
      (∀ j ∈ l, 1 ≤ j.qty ∧ 0 < j.sale_price_ars) →
      sumItemsValidate (l.map toItemPayload) acc = .ok (acc + computeServerTotalReq l)
  | [], acc, _ => by simp [sumItemsValidate, computeServerTotalReq]
  | j :: t, acc, hall => by
    have hj := hall j (List.mem_cons_self j t)
    have ht : ∀ x ∈ t, 1 ≤ x.qty ∧ 0 < x.sale_price_ars :=
      fun x hx => hall x (List.mem_cons_of_mem j hx)
    simp only [List.map_cons, sumItemsValidate, toItemPayload, Option.getD_some]
    rw [if_neg (not_lt.2 hj.1), if_neg (not_le.2 hj.2)]
    rw [sumItemsValidate_map_ok t (acc + (j.qty : Money) * j.sale_price_ars) ht]
    simp only [computeServerTotalReq, List.map_cons, List.sum_cons, Except.ok.injEq]
    ring

theorem nullifEmpty_some_ne (m : String) (hm : ¬ m = "") :
    nullifEmpty (some m) = some m := by
  unfold nullifEmpty
  split
  · rename_i heq
    exact absurd heq (by intro hc; injection hc with hc2; exact hm hc2)
  · rfl

theorem schemaOk_items_all (req : CreateReq) (hs : saleCreateSchemaOk req = true) :
    req.items.all itemReqOk = true := by
  cases hx : req.items.all itemReqOk with
  | true => rfl
  | false =>
    have hs2 := hs
    simp only [saleCreateSchemaOk] at hs2
    rw [hx] at hs2
    simp at hs2

theorem schemaOk_method (req : CreateReq) (hs : saleCreateSchemaOk req = true) :
    optMethodOk req.payment_method = true := by
  cases hx : optMethodOk req.payment_method with
  | true => rfl
  | false =>
    have hs2 := hs
    simp only [saleCreateSchemaOk] at hs2
    rw [hx] at hs2
    simp at hs2

theorem schemaOk_payLegacy (req : CreateReq) (hs : saleCreateSchemaOk req = true) :
    payLegacyOk req.payment = true := by
  cases hx : payLegacyOk req.payment with
  | true => rfl
  | false =>
    have hs2 := hs
    simp only [saleCreateSchemaOk] at hs2
    rw [hx] at hs2
    simp at hs2

theorem schemaOk_item_bounds (req : CreateReq) (hs : saleCreateSchemaOk req = true) :
    ∀ j ∈ req.items, 1 ≤ j.qty ∧ 0 < j.sale_price_ars := by
  intro j hj
  have hb := List.all_eq_true.1 (schemaOk_items_all req hs) j hj
  simpa [itemReqOk] using hb

theorem normalizeCreate_method_allowed (req : CreateReq)
    (hs : saleCreateSchemaOk req = true) :
    allowedMethods.contains
      (((nullifEmpty (normalizeCreate req).rpc.payment_method).orElse (fun _ =>
        nullifEmpty ((normalizeCreate req).rpc.payment.bind (fun x => x.method)))).getD
        "cash") = true := by
  cases hpm : req.payment_method with
  | some m =>
    have hcm : allowedMethods.contains m = true := by
      have h1 := schemaOk_method req hs
      rw [hpm] at h1
      simpa [optMethodOk] using h1
    have hmne : ¬ m = "" := by
      intro he
      rw [he] at hcm
      exact absurd hcm (by decide)
    simp [normalizeCreate, hpm, nullifEmpty_some_ne m hmne, Option.orElse, hcm]
    simpa using hcm
  | none =>
    cases hpb : req.payment.bind (fun x => x.method) with
    | some m =>
      have hcm : allowedMethods.contains m = true := by
        cases hpay : req.payment with
        | none =>
          rw [hpay] at hpb
          exact Option.noConfusion hpb
        | some pl =>
          have hpl := schemaOk_payLegacy req hs
          rw [hpay] at hpl hpb
          simp only [Option.some_bind] at hpb
          simp only [payLegacyOk, Bool.and_eq_true] at hpl
          have h2 := hpl.1.1.1.1
          rw [hpb] at h2
          simpa [optMethodOk] using h2
      have hmne : ¬ m = "" := by
        intro he
        rw [he] at hcm
        exact absurd hcm (by decide)
      simp [normalizeCreate, hpm, hpb, nullifEmpty_some_ne m hmne, Option.orElse, hcm]
      simpa using hcm
    | none =>
      simp [normalizeCreate, hpm, hpb, nullifEmpty, Option.orElse]
      decide

theorem create_qty_head_error (db : DB) (p : CreatePayload) (u : Uid) (now : Int)
    (d : Int) (i0 : ItemPayload) (rest : List ItemPayload) (T : Money)
    (hd : p.sale_date = some d)
    (hit : p.items = some (i0 :: rest))
    (hsum : sumItemsValidate (i0 :: rest) 0 = .ok T)
    (hpos : 0 < T)
    (hmm : totalMismatch p.total_ars T = false)
    (hseller : db.profiles.contains (p.seller_id.getD u) = true)
    (dbC : DB) (cid : Uid) (cn cp : Option String)
    (hcust : resolveCreateCustomer db p = .ok (dbC, cid, cn, cp))
    (hmeth : allowedMethods.contains
      (((nullifEmpty p.payment_method).orElse (fun _ =>
        nullifEmpty (p.payment.bind (fun x => x.method)))).getD "cash") = true)
    (hcurr : p.currency = none)
    (hq : ¬ i0.qty.getD 1 = 1) :
    rpc_create_sale_v2 db p u now =
      .error ⟨"validation_error", "qty_not_supported_for_serialized_stock"⟩ := by
  have hlen : ¬ (i0 :: rest).length = 0 := by simp
  simp only [rpc_create_sale_v2, hd, hit, hsum, hcurr]
  rw [if_neg hlen, if_neg (not_le.2 hpos)]
  rw [hmm, if_neg Bool.false_ne_true]
  rw [if_neg (not_not_intro hseller)]
  simp only [hcust]
  rw [if_neg (not_not_intro hmeth)]
  rw [if_neg (by decide : ¬ ¬ allowedCurrencies.contains
    (strUpper ((nullifEmpty none).getD "ARS")) = true)]
  rw [if_neg (fun hc => absurd hc.1 (by decide))]
  simp only [claimItems]
  rw [if_pos hq]

/-- C9 counterexample: a create request whose only line has quantity 0 is
rejected by the zod schema at the HTTP boundary with status 400, not the 422
the claim asserts; the database is untouched. -/
theorem create_qty_zero_rejected_400 :
    handleCreateSale exDB 1 none c9Req 5 = (⟨400, .failure "validation_error"⟩, exDB) ∧
    (∀ i ∈ c9Req.items, ¬ i.qty = 1) ∧
    ¬ (400 : Int) = 422 :=
  ⟨by decide, by decide, by decide⟩

/-- C9 (amended): an item line whose quantity is not exactly 1 never produces
a sale. A quantity below 1 is rejected by the zod schema with HTTP 400
validation_error (not 422) and the database unchanged; any quantity other
than 1 makes the create and update engines abort, so the transaction (sale
row, items, stock, warranties, payments) rolls back; an item-replacing patch
never answers 200 and returns the database unchanged; a create request
through the HTTP handler (on a database with no idempotency reservations)
never answers 201 and leaves sales, stock, sale items, warranties and
payments untouched; and when the mis-quantified line (qty ≥ 2, schema-passed)
is the first line and the declared total, seller and customer pass their
earlier checks, the engine aborts precisely with validation_error
qty_not_supported_for_serialized_stock and the handler answers exactly
422 validation_error with the database unchanged. -/
theorem qty_not_one_rejected (db : DB) (u : Uid) (now : Int) :
    (∀ (k : Option String) (req : CreateReq), (∃ i ∈ req.items, i.qty < 1) →
      handleCreateSale db u k req now = (⟨400, .failure "validation_error"⟩, db)) ∧
    (∀ (p : CreatePayload) (items : List ItemPayload), p.items = some items →
      (∃ i ∈ items, ¬ i.qty.getD 1 = 1) →
      ∀ db' out, ¬ rpc_create_sale_v2 db p u now = .ok (db', out)) ∧
    (∀ (sid : Uid) (p : UpdatePayload) (items : List ItemPayload), p.items = some items →
      (∃ i ∈ items, ¬ i.qty.getD 1 = 1) →
      ∀ db' out, ¬ rpc_update_sale_v2 db sid p u now = .ok (db', out)) ∧
    (∀ (sid : Uid) (req : PatchReq) (its : List SaleItemReq), req.items = some its →
      (∃ i ∈ its, ¬ i.qty = 1) →
      ∃ r, handlePatchSale db u sid req now = (r, db) ∧ ¬ r.status = 200) ∧
    (db.idempotency_keys = [] →
      ∀ (k : Option String) (req : CreateReq), (∃ i ∈ req.items, ¬ i.qty = 1) →
      ∃ r db2, handleCreateSale db u k req now = (r, db2) ∧ ¬ r.status = 201 ∧
        db2.sales = db.sales ∧ db2.stock_items = db.stock_items ∧
        db2.sale_items = db.sale_items ∧ db2.warranties = db.warranties ∧
        db2.sale_payments = db.sale_payments) ∧
    (∀ (req : CreateReq) (i : SaleItemReq) (rest : List SaleItemReq)
       (dbC : DB) (cid : Uid) (cn cp : Option String),
      saleCreateSchemaOk req = true →
      req.items = i :: rest →
      ¬ i.qty = 1 →
      totalMismatch (normalizeCreate req).input_total_ars
        (computeServerTotalReq req.items) = false →
      db.profiles.contains u = true →
      resolveCreateCustomer db (normalizeCreate req).rpc = .ok (dbC, cid, cn, cp) →
      rpc_create_sale_v2 db (normalizeCreate req).rpc u now =
        .error ⟨"validation_error", "qty_not_supported_for_serialized_stock"⟩ ∧
      handleCreateSale db u none req now =
        (⟨422, .failure "validation_error"⟩, db)) := by
  refine ⟨?_, ?_, ?_, ?_, ?_, ?_⟩
  · intro k req hex
    obtain ⟨i, him, hq⟩ := hex
    have hia : req.items.all itemReqOk = false := by
      rw [List.all_eq_false]
      refine ⟨i, him, fun hc => ?_⟩
      simp [itemReqOk] at hc
      exact absurd hc.1 (not_le.2 hq)
    have hbad : saleCreateSchemaOk req = false := by
      simp [saleCreateSchemaOk, hia]
    simp [handleCreateSale, hbad]
  · intro p items hit hex db' out h
    obtain ⟨i, him, hq⟩ := hex
    exact create_rpc_qty_ne_one_not_ok db p u now items hit i him hq db' out h
  · intro sid p items hit hex db' out h
    obtain ⟨i, him, hq⟩ := hex
    exact hq ((update_ok_anatomy db sid p u now db' out h).2 items hit i him)
  · intro sid req its hits hex
    obtain ⟨i, him, hq⟩ := hex
    by_cases h1 : salePatchSchemaOk req = true
    · by_cases h2 : patchTotalPre req.items (normalizePatch req).total_ars = true
      · refine ⟨⟨422, some "total_mismatch", none⟩, ?_, by decide⟩
        simp [handlePatchSale, h1, h2]
      · cases heq : rpc_update_sale_v2 db sid (normalizePatch req) u now with
        | ok pr =>
          exfalso
          obtain ⟨db', out⟩ := pr
          have hone := (update_ok_anatomy db sid (normalizePatch req) u now db' out heq).2
            (its.map toItemPayload) (by simp [normalizePatch, hits])
            (toItemPayload i) (List.mem_map_of_mem _ him)
          simp [toItemPayload] at hone
          exact hq hone
        | error e =>
          refine ⟨⟨(mapRpcError e).1, some (mapRpcError e).2, none⟩, ?_,
            mapRpcError_fst_ne_200 e⟩
          simp [handlePatchSale, h1, h2, heq]
    · refine ⟨⟨400, some "validation_error", none⟩, ?_, by decide⟩
      simp [handlePatchSale, h1]
  · intro hni k req hex
    obtain ⟨i, him, hq⟩ := hex
    by_cases h1 : saleCreateSchemaOk req = true
    · by_cases h2 : totalMismatch (normalizeCreate req).input_total_ars
          (computeServerTotalReq req.items) = true
      · refine ⟨⟨422, .failure "total_mismatch"⟩, db, ?_, by decide, rfl, rfl, rfl, rfl, rfl⟩
        simp [handleCreateSale, h1, h2]
      · cases k with
        | none =>
          obtain ⟨e, herr, hrun⟩ := runCreateRpc_never_ok db u none (normalizeCreate req) now
            (create_rpc_qty_ne_one_not_ok db _ u now _ (by simp [normalizeCreate])
              (toItemPayload i) (List.mem_map_of_mem _ him)
              (by simpa [toItemPayload] using hq))
          refine ⟨⟨(mapRpcError e).1, Body.failure (mapRpcError e).2⟩, db, ?_,
            mapRpcError_fst_ne_201 e, rfl, rfl, rfl, rfl, rfl⟩
          have hstep : handleCreateSale db u none req now =
              runCreateRpc db u none (normalizeCreate req) now := by
            simp [handleCreateSale, h1, h2]
          rw [hstep, hrun]
          rfl
        | some kk =>
          have hfind : db.idempotency_keys.find? (fun r =>
              r.user_id == u && r.route == IDEMPOTENCY_ROUTE && r.key == kk) = none := by
            rw [hni]
            rfl
          have hstep : handleCreateSale db u (some kk) req now =
              runCreateRpc
                { db with
                  idempotency_keys := db.idempotency_keys ++
                    [{ id := db.next_id, user_id := u, route := IDEMPOTENCY_ROUTE
                       key := kk, request_hash := normalizeCreate req
                       response_status := none, response_body := none }]
                  next_id := db.next_id + 1 }
                u (some db.next_id) (normalizeCreate req) now := by
            simp [handleCreateSale, h1, h2, hfind]
          obtain ⟨e, herr, hrun⟩ := runCreateRpc_never_ok
            { db with
              idempotency_keys := db.idempotency_keys ++
                [{ id := db.next_id, user_id := u, route := IDEMPOTENCY_ROUTE
                   key := kk, request_hash := normalizeCreate req
                   response_status := none, response_body := none }]
              next_id := db.next_id + 1 }
            u (some db.next_id) (normalizeCreate req) now
            (create_rpc_qty_ne_one_not_ok _ _ u now _ (by simp [normalizeCreate])
              (toItemPayload i) (List.mem_map_of_mem _ him)
              (by simpa [toItemPayload] using hq))
          refine ⟨⟨(mapRpcError e).1, Body.failure (mapRpcError e).2⟩,
            persistIdemResult
              { db with
                idempotency_keys := db.idempotency_keys ++
                  [{ id := db.next_id, user_id := u, route := IDEMPOTENCY_ROUTE
                     key := kk, request_hash := normalizeCreate req
                     response_status := none, response_body := none }]
                next_id := db.next_id + 1 }
              (some db.next_id) (mapRpcError e).1 (Body.failure (mapRpcError e).2), ?_,
            mapRpcError_fst_ne_201 e, ?_, ?_, ?_, ?_, ?_⟩
          · rw [hstep, hrun]
          · exact (persistIdemResult_frame _ _ _ _).1
          · exact (persistIdemResult_frame _ _ _ _).2.1
          · exact (persistIdemResult_frame _ _ _ _).2.2.1
          · exact (persistIdemResult_frame _ _ _ _).2.2.2.1
          · exact (persistIdemResult_frame _ _ _ _).2.2.2.2.1
    · refine ⟨⟨400, .failure "validation_error"⟩, db, ?_, by decide, rfl, rfl, rfl, rfl, rfl⟩
      simp [handleCreateSale, h1]
  · intro req i rest dbC cid cn cp hs hitems hq hmm hseller hcust
    have hall : ∀ j ∈ req.items, 1 ≤ j.qty ∧ 0 < j.sale_price_ars :=
      schemaOk_item_bounds req hs
    have hall2 : ∀ j ∈ i :: rest, 1 ≤ j.qty ∧ 0 < j.sale_price_ars := by
      rw [← hitems]
      exact hall
    have hit : (normalizeCreate req).rpc.items =
        some (toItemPayload i :: rest.map toItemPayload) := by
      simp [normalizeCreate, hitems]
    have hd : (normalizeCreate req).rpc.sale_date = some req.sale_date := by
      simp [normalizeCreate]
    have hsum2 : sumItemsValidate (toItemPayload i :: rest.map toItemPayload) 0 =
        .ok (computeServerTotalReq (i :: rest)) := by
      have h0 := sumItemsValidate_map_ok (i :: rest) 0 hall2
      rw [zero_add] at h0
      simpa [List.map_cons] using h0
    have hpos2 : 0 < computeServerTotalReq (i :: rest) :=
      computeServerTotalReq_pos i rest hall2
    have hpt : (normalizeCreate req).rpc.total_ars =
        some (computeServerTotalReq req.items) := by
      simp [normalizeCreate]
    have hmmrpc : totalMismatch (normalizeCreate req).rpc.total_ars
        (computeServerTotalReq (i :: rest)) = false := by
      rw [hpt, hitems]
      exact totalMismatch_self _
    have hps : (normalizeCreate req).rpc.seller_id = none := by
      simp [normalizeCreate]
    have hsel2 : db.profiles.contains ((normalizeCreate req).rpc.seller_id.getD u)
        = true := by
      rw [hps]
      exact hseller
    have hcur : (normalizeCreate req).rpc.currency = none := by
      simp [normalizeCreate]
    have hq2 : ¬ (toItemPayload i).qty.getD 1 = 1 := by
      simpa [toItemPayload] using hq
    have herr := create_qty_head_error db (normalizeCreate req).rpc u now req.sale_date
      (toItemPayload i) (rest.map toItemPayload) (computeServerTotalReq (i :: rest))
      hd hit hsum2 hpos2 hmmrpc hsel2 dbC cid cn cp hcust
      (normalizeCreate_method_allowed req hs) hcur hq2
    refine ⟨herr, ?_⟩
    have hmap : mapRpcError ⟨"validation_error",
        "qty_not_supported_for_serialized_stock"⟩ = (422, "validation_error") := by
      decide
    simp [handleCreateSale, hs, hmm, runCreateRpc, herr, hmap, persistIdemResult]

/-- Witness for `qty_not_one_rejected`: the qty-0 request is answered 400
with the database unchanged, and the schema-passing qty-2 request never
yields 201 nor a new sale row. -/
theorem qty_not_one_rejected_witness :
    handleCreateSale exDB 1 none c9Req 5 = (⟨400, .failure "validation_error"⟩, exDB) ∧
    rpc_create_sale_v2 exDB (normalizeCreate c9Req2).rpc 1 5 =
      .error ⟨"validation_error", "qty_not_supported_for_serialized_stock"⟩ ∧
    handleCreateSale exDB 1 none c9Req2 5 =
      (⟨422, .failure "validation_error"⟩, exDB) := by
  have h1 := (qty_not_one_rejected exDB 1 5).1 none c9Req (by decide)
  have h2 := (qty_not_one_rejected exDB 1 5).2.2.2.2.2 c9Req2 ⟨101, 2, 600⟩ []
    exDB 7 none none (by decide) rfl (by decide) (by decide) (by decide) (by decide)
  exact ⟨h1, h2.1, h2.2⟩

theorem find?_append_of_none {α : Type} (p : α → Bool) :
    ∀ (l1 l2 : List α), l1.find? p = none → (l1 ++ l2).find? p = l2.find? p
  | [], l2, _ => rfl
  | a :: t, l2, h => by
    cases hpa : p a with
    | true =>
      rw [List.find?_cons_of_pos _ hpa] at h
      exact Option.noConfusion h
    | false =>
      have hpa' : ¬ p a = true := by rw [hpa]; exact Bool.false_ne_true
      rw [List.find?_cons_of_neg _ hpa'] at h
      rw [List.cons_append, List.find?_cons_of_neg _ hpa']
      exact find?_append_of_none p t l2 h

theorem idemKeys_map_untouched (rid : Uid) (s : Int) (b : Body) :
    ∀ (l : List IdemRow), (∀ r ∈ l, r.id < rid) →
      l.map (fun r => if r.id == rid then
        { r with response_status := some s, response_body := some b } else r) = l
  | [], _ => rfl
  | a :: t, hb => by
    simp only [List.map_cons]
    have ha : ¬ (a.id == rid) = true := by
      simp only [beq_iff_eq]
      exact Nat.ne_of_lt (hb a (List.mem_cons_self a t))
    rw [if_neg ha]
    rw [idemKeys_map_untouched rid s b t (fun r hr => hb r (List.mem_cons_of_mem a hr))]

/-- C6: the idempotency layer of the create handler. When a reservation for
the key already exists: a differing fingerprint answers 409
idempotency_conflict without running the engine or touching state; a stored
response is replayed exactly, unmutated; a reservation without a stored
response answers 409 in-progress. With no prior reservation (and the id
allocator ahead of every stored reservation id), submitting the same payload
twice under the same key returns identical status and body both times and
creates exactly one sale on success and none on failure. -/
theorem idempotency_protocol (db : DB) (u : Uid) (k : String) (req : CreateReq)
    (now now2 : Int)
    (hs : saleCreateSchemaOk req = true)
    (hmm : totalMismatch (normalizeCreate req).input_total_ars
      (computeServerTotalReq req.items) = false) :
    (∀ ex, db.idempotency_keys.find? (fun r =>
        r.user_id == u && r.route == IDEMPOTENCY_ROUTE && r.key == k) = some ex →
      (ex.request_hash ≠ normalizeCreate req →
        handleCreateSale db u (some k) req now =
          (⟨409, .failure "idempotency_conflict"⟩, db)) ∧
      (∀ s b, ex.request_hash = normalizeCreate req → ex.response_status = some s →
        ex.response_body = some b → ¬ s = 0 →
        handleCreateSale db u (some k) req now = (⟨s, b⟩, db)) ∧
      (ex.request_hash = normalizeCreate req → ex.response_status = none →
        handleCreateSale db u (some k) req now =
          (⟨409, .failure "idempotency_in_progress"⟩, db))) ∧
    (db.idempotency_keys.find? (fun r =>
        r.user_id == u && r.route == IDEMPOTENCY_ROUTE && r.key == k) = none →
      (∀ r ∈ db.idempotency_keys, r.id < db.next_id) →
      ∀ r1 db1, handleCreateSale db u (some k) req now = (r1, db1) →
        handleCreateSale db1 u (some k) req now2 = (r1, db1) ∧
        (r1.status = 201 → db1.sales.length = db.sales.length + 1) ∧
        (¬ r1.status = 201 → db1.sales = db.sales)) := by
  constructor
  · intro ex hfind
    refine ⟨?_, ?_, ?_⟩
    · intro hne
      simp [handleCreateSale, hs, hmm, hfind, hne]
    · intro s b hhash hrs hrb hs0
      simp [handleCreateSale, hs, hmm, hfind, hhash, hrs, hrb, hs0]
    · intro hhash hrs
      simp [handleCreateSale, hs, hmm, hfind, hhash, hrs]
  · intro hfind hwf r1 db1 hcall
    have hstep : handleCreateSale db u (some k) req now =
        runCreateRpc
          { db with
            idempotency_keys := db.idempotency_keys ++
              [{ id := db.next_id, user_id := u, route := IDEMPOTENCY_ROUTE
                 key := k, request_hash := normalizeCreate req
                 response_status := none, response_body := none }]
            next_id := db.next_id + 1 }
          u (some db.next_id) (normalizeCreate req) now := by
      simp [handleCreateSale, hs, hmm, hfind]
    cases heq : rpc_create_sale_v2
        { db with
          idempotency_keys := db.idempotency_keys ++
            [{ id := db.next_id, user_id := u, route := IDEMPOTENCY_ROUTE
               key := k, request_hash := normalizeCreate req
               response_status := none, response_body := none }]
          next_id := db.next_id + 1 }
        (normalizeCreate req).rpc u now with
    | ok pr =>
      obtain ⟨dbO, out⟩ := pr
      have hana := create_ok_anatomy _ _ u now dbO out heq
      have hidem : dbO.idempotency_keys = db.idempotency_keys ++
          [{ id := db.next_id, user_id := u, route := IDEMPOTENCY_ROUTE
             key := k, request_hash := normalizeCreate req
             response_status := none, response_body := none }] := hana.2.1
      have hlen : dbO.sales.length = db.sales.length + 1 := hana.2.2.2.1
      have hrun : runCreateRpc
          { db with
            idempotency_keys := db.idempotency_keys ++
              [{ id := db.next_id, user_id := u, route := IDEMPOTENCY_ROUTE
                 key := k, request_hash := normalizeCreate req
                 response_status := none, response_body := none }]
            next_id := db.next_id + 1 }
          u (some db.next_id) (normalizeCreate req) now =
          (⟨201, Body.success out.sale_id out.trade_in_id out.customer_id
              out.total_ars out.server_total_ars⟩,
           persistIdemResult dbO (some db.next_id) 201
             (Body.success out.sale_id out.trade_in_id out.customer_id
               out.total_ars out.server_total_ars)) := by
        simp [runCreateRpc, heq]
      rw [hstep, hrun] at hcall
      injection hcall with h1 h2
      subst h1
      subst h2
      have hpersist : (persistIdemResult dbO (some db.next_id) 201
          (Body.success out.sale_id out.trade_in_id out.customer_id
            out.total_ars out.server_total_ars)).idempotency_keys =
          db.idempotency_keys ++
          [{ id := db.next_id, user_id := u, route := IDEMPOTENCY_ROUTE
             key := k, request_hash := normalizeCreate req
             response_status := some 201
             response_body := some (Body.success out.sale_id out.trade_in_id
               out.customer_id out.total_ars out.server_total_ars) }] := by
        simp only [persistIdemResult, hidem, List.map_append]
        rw [idemKeys_map_untouched db.next_id 201
          (Body.success out.sale_id out.trade_in_id out.customer_id
            out.total_ars out.server_total_ars) db.idempotency_keys hwf]
        simp
      have hfind2 : (persistIdemResult dbO (some db.next_id) 201
          (Body.success out.sale_id out.trade_in_id out.customer_id
            out.total_ars out.server_total_ars)).idempotency_keys.find?
          (fun r => r.user_id == u && r.route == IDEMPOTENCY_ROUTE && r.key == k) =
          some { id := db.next_id, user_id := u, route := IDEMPOTENCY_ROUTE
                 key := k, request_hash := normalizeCreate req
                 response_status := some 201
                 response_body := some (Body.success out.sale_id out.trade_in_id
                   out.customer_id out.total_ars out.server_total_ars) } := by
        rw [hpersist, find?_append_of_none _ _ _ hfind,
          List.find?_cons_of_pos _ (by simp)]
      refine ⟨?_, fun _ => ?_, fun hne => absurd rfl hne⟩
      · simp [handleCreateSale, hs, hmm, hfind2]
      · rw [(persistIdemResult_frame dbO (some db.next_id) 201
          (Body.success out.sale_id out.trade_in_id out.customer_id
            out.total_ars out.server_total_ars)).1]
        exact hlen
    | error e =>
      have hrun : runCreateRpc
          { db with
            idempotency_keys := db.idempotency_keys ++
              [{ id := db.next_id, user_id := u, route := IDEMPOTENCY_ROUTE
                 key := k, request_hash := normalizeCreate req
                 response_status := none, response_body := none }]
            next_id := db.next_id + 1 }
          u (some db.next_id) (normalizeCreate req) now =
          (⟨(mapRpcError e).1, Body.failure (mapRpcError e).2⟩,
           persistIdemResult
             { db with
               idempotency_keys := db.idempotency_keys ++
                 [{ id := db.next_id, user_id := u, route := IDEMPOTENCY_ROUTE
                    key := k, request_hash := normalizeCreate req
                    response_status := none, response_body := none }]
               next_id := db.next_id + 1 }
             (some db.next_id) (mapRpcError e).1 (Body.failure (mapRpcError e).2)) := by
        simp [runCreateRpc, heq]
      rw [hstep, hrun] at hcall
      injection hcall with h1 h2
      subst h1
      subst h2
      have hpersist : (persistIdemResult
          { db with
            idempotency_keys := db.idempotency_keys ++
              [{ id := db.next_id, user_id := u, route := IDEMPOTENCY_ROUTE
                 key := k, request_hash := normalizeCreate req
                 response_status := none, response_body := none }]
            next_id := db.next_id + 1 }
          (some db.next_id) (mapRpcError e).1
          (Body.failure (mapRpcError e).2)).idempotency_keys =
          db.idempotency_keys ++
          [{ id := db.next_id, user_id := u, route := IDEMPOTENCY_ROUTE
             key := k, request_hash := normalizeCreate req
             response_status := some (mapRpcError e).1
             response_body := some (Body.failure (mapRpcError e).2) }] := by
        simp only [persistIdemResult, List.map_append]
        rw [idemKeys_map_untouched db.next_id (mapRpcError e).1
          (Body.failure (mapRpcError e).2) db.idempotency_keys hwf]
        simp
      have hfind2 : (persistIdemResult
          { db with
            idempotency_keys := db.idempotency_keys ++
              [{ id := db.next_id, user_id := u, route := IDEMPOTENCY_ROUTE
                 key := k, request_hash := normalizeCreate req
                 response_status := none, response_body := none }]
            next_id := db.next_id + 1 }
          (some db.next_id) (mapRpcError e).1
          (Body.failure (mapRpcError e).2)).idempotency_keys.find?
          (fun r => r.user_id == u && r.route == IDEMPOTENCY_ROUTE && r.key == k) =
          some { id := db.next_id, user_id := u, route := IDEMPOTENCY_ROUTE
                 key := k, request_hash := normalizeCreate req
                 response_status := some (mapRpcError e).1
                 response_body := some (Body.failure (mapRpcError e).2) } := by
        rw [hpersist, find?_append_of_none _ _ _ hfind,
          List.find?_cons_of_pos _ (by simp)]
      refine ⟨?_, fun hc => absurd hc (mapRpcError_fst_ne_201 e), fun _ => ?_⟩
      · simp [handleCreateSale, hs, hmm, hfind2, mapRpcError_fst_ne_zero e]
      · exact (persistIdemResult_frame _ _ _ _).1

/-- Witness for `idempotency_protocol`: creating with key "K" on `exDB` and
repeating the identical request replays the exact 201 response and leaves
exactly one new sale. -/
theorem idempotency_protocol_witness :
    (saleCreateSchemaOk c6Req = true ∧
     totalMismatch (normalizeCreate c6Req).input_total_ars
       (computeServerTotalReq c6Req.items) = false ∧
     exDB.idempotency_keys.find? (fun r =>
       r.user_id == 1 && r.route == IDEMPOTENCY_ROUTE && r.key == "K") = none) ∧
    handleCreateSale c6Pair.2 1 (some "K") c6Req 9 = (c6Pair.1, c6Pair.2) ∧
    c6Pair.1.status = 201 ∧ c6Pair.2.sales.length = exDB.sales.length + 1 := by
  have h := (idempotency_protocol exDB 1 "K" c6Req 5 9 (by decide) (by decide)).2
    (by decide) (by decide) c6Pair.1 c6Pair.2 rfl
  exact ⟨⟨by decide, by decide, by decide⟩, h.1, by decide, h.2.1 (by decide)⟩
